import Mathlib

/-!
Shallow embedding of the WhatsApp order-parsing core of the repository:
`backend/utils/whatsapp_parser.py`, `backend/utils/coordinates_extractor.py`
and `backend/models/nlp_processor.py`, together with theorems settling the
specification claims about them.

Modelling conventions:
* Python `float` arithmetic is modelled with `ℚ` (the confidence weights and
  coordinate bounds are small decimal literals; no claim depends on binary
  floating-point rounding).
* Python regular expressions are modelled by a small backtracking engine
  (`Re`, `mAll`, `reSearch`, `reFindAll`) whose alternative ordering and
  greedy/lazy quantifier priority follow CPython's `re` module.
* External collaborators (the fuzzy string-similarity library, the TF-IDF
  vector model, and the network link resolver) are parameters: functions
  supplied to the embedded code, exactly like the injectable collaborator
  interfaces of the specification.
* `datetime.now()` is modelled by an explicit `now : String` argument.
-/

attribute [local semireducible] Rat.add Rat.mul Rat.inv Rat.sub Rat.ofScientific

namespace CocoOrders

/-- Python `\s` (the whitespace characters the source's patterns rely on). -/
def pyIsSpace (c : Char) : Bool :=
  c == ' ' || c == '\t' || c == '\n' || c == '\r' || c == '\x0b' || c == '\x0c'

/-- The accented characters appearing in the source's Spanish patterns. -/
def spanishExtra : List Char :=
  ['á', 'é', 'í', 'ó', 'ú', 'ñ', 'ü', 'Á', 'É', 'Í', 'Ó', 'Ú', 'Ñ', 'Ü']

/-- Python `\w` restricted to the alphabet the repository actually uses
(ASCII alphanumerics, underscore, Spanish accented letters). -/
def pyIsWord (c : Char) : Bool :=
  c.isAlphanum || c == '_' || spanishExtra.contains c

/-- Upper/lower pairs for Python `str.lower` on the repository's alphabet. -/
def lowerPairs : List (Char × Char) :=
  [('A', 'a'), ('B', 'b'), ('C', 'c'), ('D', 'd'), ('E', 'e'), ('F', 'f'),
   ('G', 'g'), ('H', 'h'), ('I', 'i'), ('J', 'j'), ('K', 'k'), ('L', 'l'),
   ('M', 'm'), ('N', 'n'), ('O', 'o'), ('P', 'p'), ('Q', 'q'), ('R', 'r'),
   ('S', 's'), ('T', 't'), ('U', 'u'), ('V', 'v'), ('W', 'w'), ('X', 'x'),
   ('Y', 'y'), ('Z', 'z'),
   ('Á', 'á'), ('É', 'é'), ('Í', 'í'), ('Ó', 'ó'), ('Ú', 'ú'), ('Ñ', 'ñ'),
   ('Ü', 'ü')]

/-- Python `str.lower` on one character. -/
def pyCharLower (c : Char) : Char :=
  (((lowerPairs.find? (fun p => p.1 == c)).map Prod.snd).getD c)

/-- A character that `str.lower` would change (an upper-case character). -/
def pyIsUpperish (c : Char) : Bool :=
  (lowerPairs.find? (fun p => p.1 == c)).isSome

/-- Python `str.upper` on one character. -/
def pyCharUpper (c : Char) : Char :=
  (((lowerPairs.find? (fun p => p.2 == c)).map Prod.fst).getD c)

/-- Python `str.lower`. -/
def pyLower (s : String) : String := ⟨s.data.map pyCharLower⟩

/-- Python `str.strip` on a character list. -/
def pyStripL (cs : List Char) : List Char :=
  ((cs.dropWhile pyIsSpace).reverse.dropWhile pyIsSpace).reverse

/-- Python `str.strip`. -/
def pyStrip (s : String) : String := ⟨pyStripL s.data⟩

/-- A cased letter, for `str.title`. -/
def pyIsAlphaChar (c : Char) : Bool :=
  c.isAlpha || spanishExtra.contains c

/-- Python `str.title`, character by character; the flag records whether the
previous character was a letter. -/
def pyTitleGo : Bool → List Char → List Char
  | _, [] => []
  | prevAlpha, c :: rest =>
    if pyIsAlphaChar c then
      (if prevAlpha then pyCharLower c else pyCharUpper c) :: pyTitleGo true rest
    else
      c :: pyTitleGo false rest

/-- Python `str.title`. -/
def pyTitle (s : String) : String := ⟨pyTitleGo false s.data⟩

/-- Numeric value of a digit string (all characters must be digits). -/
def natOfDigits (cs : List Char) : ℕ :=
  cs.foldl (fun n c => n * 10 + (c.toNat - 48)) 0

/-- Python `str.isdigit`. -/
def pyIsDigit (s : String) : Bool :=
  !s.data.isEmpty && s.data.all Char.isDigit

/-- Python `int(str)`: optional sign followed by at least one digit
(`None` models `ValueError`). -/
def pyInt (s : String) : Option ℤ :=
  let cs := pyStripL s.data
  match cs with
  | [] => none
  | c :: rest =>
    if c == '-' then
      if !rest.isEmpty && rest.all Char.isDigit then some (-(natOfDigits rest : ℤ)) else none
    else if c == '+' then
      if !rest.isEmpty && rest.all Char.isDigit then some ((natOfDigits rest : ℤ)) else none
    else
      if cs.all Char.isDigit then some ((natOfDigits cs : ℤ)) else none

/-- Digits and an optional single dot, as accepted by Python `float` for the
strings the extraction patterns can capture; returns integer part digits and
fractional part digits. -/
def splitFloatBody (cs : List Char) : Option (List Char × List Char) :=
  let ip := cs.takeWhile Char.isDigit
  let rest := cs.dropWhile Char.isDigit
  match rest with
  | [] => if ip.isEmpty then none else some (ip, [])
  | '.' :: frac =>
    if frac.all Char.isDigit then
      if ip.isEmpty && frac.isEmpty then none else some (ip, frac)
    else none
  | _ => none

/-- Python `float(str)` on decimal literals (`None` models `ValueError`);
the value is exact in `ℚ`. -/
def pyFloat (s : String) : Option ℚ :=
  let cs := pyStripL s.data
  let signed : Bool × List Char :=
    match cs with
    | '-' :: rest => (true, rest)
    | '+' :: rest => (false, rest)
    | _ => (false, cs)
  match splitFloatBody signed.2 with
  | none => none
  | some (ip, fp) =>
    let mag : ℚ := (natOfDigits ip : ℚ) + (natOfDigits fp : ℚ) / ((10 : ℚ) ^ fp.length)
    some (if signed.1 then -mag else mag)

/-- Python `str.find` (first index of a substring, `None` models `-1`). -/
def pyFindL (hay sub : List Char) : Option ℕ :=
  (List.range (hay.length + 1)).find? (fun i => sub.isPrefixOf (hay.drop i))

/-- Python `str.find`. -/
def pyFind (hay sub : String) : Option ℕ := pyFindL hay.data sub.data

/-- Python `sub in hay`. -/
def pyContains (hay sub : String) : Bool := (pyFind hay sub).isSome

/-- Python slice `s[a:b]` (with the usual clamping). -/
def pySlice (s : String) (a b : ℕ) : String := ⟨(s.data.drop a).take (b - a)⟩

/-- Python `str.split()` scanning loop: `acc` is the word being read. -/
def pySplitWsGo : List Char → List Char → List (List Char)
  | acc, [] => if acc.isEmpty then [] else [acc]
  | acc, c :: rest =>
    if pyIsSpace c then (if acc.isEmpty then [] else [acc]) ++ pySplitWsGo [] rest
    else pySplitWsGo (acc ++ [c]) rest

/-- Python `str.split()` (split on whitespace runs, dropping empties). -/
def pySplitWsL (cs : List Char) : List (List Char) := pySplitWsGo [] cs

/-- Python `str.split()`. -/
def pySplitWs (s : String) : List String := (pySplitWsL s.data).map String.mk

/-- Python `" ".join`. -/
def pyJoinSpace : List String → String
  | [] => ""
  | [w] => w
  | w :: rest => w ++ " " ++ pyJoinSpace rest

/-- `re.sub(r'X+', rep, s)` scanning loop: the flag records whether we are
inside a run of characters satisfying `isR`. -/
def collapseRunsGo (isR : Char → Bool) (rep : Char) : Bool → List Char → List Char
  | _, [] => []
  | inRun, c :: rest =>
    if isR c then
      if inRun then collapseRunsGo isR rep true rest
      else rep :: collapseRunsGo isR rep true rest
    else c :: collapseRunsGo isR rep false rest

/-- `re.sub(r'X+', rep, s)` for a character class `X`: collapse every run of
characters satisfying `isR` into the single character `rep`. -/
def collapseRuns (isR : Char → Bool) (rep : Char) (cs : List Char) : List Char :=
  collapseRunsGo isR rep false cs

/-- The stop words removed by `_normalize_product_name`. -/
def stopWords : List String := ["de", "del", "la", "el", "un", "una"]

/-- A finished word run: a stop word is deleted, anything else is kept. -/
def flushWord (acc : List Char) : List Char :=
  if stopWords.contains (String.mk acc) then [] else acc

/-- `re.sub(r'\b(?:de|del|la|el|un|una)\b', '', s)` scanning loop: `acc` is
the word-character run being read. -/
def dropStopWordsGo : List Char → List Char → List Char
  | acc, [] => flushWord acc
  | acc, c :: rest =>
    if pyIsWord c then dropStopWordsGo (acc ++ [c]) rest
    else flushWord acc ++ (c :: dropStopWordsGo [] rest)

/-- `re.sub(r'\b(?:de|del|la|el|un|una)\b', '', s)`: every maximal word-
character run equal to a stop word is deleted. -/
def dropStopWords (cs : List Char) : List Char := dropStopWordsGo [] cs

/-! ### A small backtracking regular-expression engine

Alternative and quantifier priority follow CPython's `re`: alternatives are
tried left to right, greedy quantifiers prefer longer matches, lazy
quantifiers prefer shorter ones, `re.search` returns the leftmost match,
`re.findall` returns non-overlapping matches left to right. -/

/-- One item of a character class. -/
inductive CAtom where
  | ch (c : Char)
  | range (lo hi : Char)
  | digit
  | word
  | space
deriving DecidableEq

/-- Does a class item accept a character? -/
def catomMatch : CAtom → Char → Bool
  | .ch c, x => x == c
  | .range lo hi, x => lo ≤ x && x ≤ hi
  | .digit, x => x.isDigit
  | .word, x => CocoOrders.pyIsWord x
  | .space, x => CocoOrders.pyIsSpace x

/-- A single-character matcher: literal, `.`, or a (possibly negated) class. -/
inductive RC where
  | lit (c : Char)
  | any
  | cls (neg : Bool) (items : List CAtom)
deriving DecidableEq

/-- Does a single-character matcher accept a character (`ic` = IGNORECASE)? -/
def rcMatch (ic : Bool) : RC → Char → Bool
  | .lit c, x =>
    if ic then CocoOrders.pyCharLower x == CocoOrders.pyCharLower c else x == c
  | .any, x => !(x == '\n')
  | .cls neg items, x =>
    let base := fun (y : Char) => items.any (fun a => catomMatch a y)
    let m :=
      if ic then
        base x || base (CocoOrders.pyCharLower x) || base (CocoOrders.pyCharUpper x)
      else base x
    if neg then !m else m

/-- Regular expressions: empty, one character, sequence, alternative,
(greedy or lazy) star, numbered capture group, end anchor `$`. -/
inductive Re where
  | eps
  | tok (rc : RC)
  | seq (a b : Re)
  | alt (a b : Re)
  | star (lz : Bool) (a : Re)
  | grp (n : Nat) (a : Re)
  | eos
deriving DecidableEq

/-- Capture groups: group number to captured text. -/
abbrev Caps := List (Nat × String)

/-- Set (or overwrite) a capture group. -/
def capsSet (g : Caps) (n : Nat) (v : String) : Caps :=
  if g.any (fun p => p.1 == n) then
    g.map (fun p => if p.1 == n then (n, v) else p)
  else g ++ [(n, v)]

/-- Read a capture group; an absent group reads as `""`. -/
def capGet (g : Caps) (n : Nat) : String :=
  (((g.find? (fun p => p.1 == n)).map Prod.snd).getD "")

/-- All ways a regex can match a prefix of the input, as
(remaining input, captures) pairs in backtracking-priority order.
`fuel` bounds the recursion depth (structurally, so that the kernel can
evaluate); only star iterations that consume input are continued, as in
`re`'s avoidance of empty-loop repetition. -/
def mAll (ic : Bool) : Nat → Re → List Char → Caps → List (List Char × Caps)
  | 0, _, _, _ => []
  | fuel + 1, re, s, g =>
    match re with
    | .eps => [(s, g)]
    | .eos => if s.isEmpty || s == ['\n'] then [(s, g)] else []
    | .tok rc =>
      match s with
      | [] => []
      | c :: rest => if rcMatch ic rc c then [(rest, g)] else []
    | .seq a b => (mAll ic fuel a s g).flatMap (fun r => mAll ic fuel b r.1 r.2)
    | .alt a b => mAll ic fuel a s g ++ mAll ic fuel b s g
    | .grp n a =>
      (mAll ic fuel a s g).map (fun r =>
        (r.1, capsSet r.2 n ⟨s.take (s.length - r.1.length)⟩))
    | .star lz a =>
      let step :=
        (mAll ic fuel a s g).flatMap (fun r =>
          if r.1.length < s.length then mAll ic fuel (.star lz a) r.1 r.2 else [])
      if lz then (s, g) :: step else step ++ [(s, g)]

/-- The size of a pattern, for the recursion-depth bound. -/
def reSize : Re → Nat
  | .eps => 1
  | .tok _ => 1
  | .eos => 1
  | .seq a b => 1 + reSize a + reSize b
  | .alt a b => 1 + reSize a + reSize b
  | .star _ a => 1 + reSize a
  | .grp _ a => 1 + reSize a

/-- Enough recursion depth for a pattern on a given input. -/
def fuelFor (re : Re) (cs : List Char) : Nat := (reSize re + 2) * (cs.length + 2)

/-- `re.search` scanning loop: try each start offset `i`, leftmost first;
`k` counts the remaining offsets. Returns (start, end, captures). -/
def searchFrom (ic : Bool) (re : Re) (cs : List Char) : Nat → Nat → Option (Nat × Nat × Caps)
  | _, 0 => none
  | i, k + 1 =>
    let tail := cs.drop i
    match mAll ic (fuelFor re cs) re tail [] with
    | (rest, g) :: _ => some (i, i + (tail.length - rest.length), g)
    | [] => if tail.isEmpty then none else searchFrom ic re cs (i + 1) k

/-- Python `re.search` (with span and captures). -/
def reSearch (ic : Bool) (re : Re) (s : String) : Option (Nat × Nat × Caps) :=
  searchFrom ic re s.data 0 (s.data.length + 1)

/-- Python `re.findall` scanning loop: repeated leftmost search, continuing
after each match (advancing one position after an empty match). -/
def findAllGo (ic : Bool) (re : Re) (cs : List Char) : Nat → Nat → List (Nat × Nat × Caps)
  | _, 0 => []
  | i, k + 1 =>
    match searchFrom ic re cs i (cs.length + 1) with
    | none => []
    | some (st, en, g) =>
      (st, en, g) :: findAllGo ic re cs (if st < en then en else en + 1) k

/-- Python `re.findall` for a two-group pattern (list of group pairs). -/
def reFindAll2 (ic : Bool) (re : Re) (s : String) : List (String × String) :=
  (findAllGo ic re s.data 0 (s.data.length + 2)).map
    (fun r => (capGet r.2.2 1, capGet r.2.2 2))

/-- Python `re.findall` for a one-group pattern (list of group captures). -/
def reFindAll1 (ic : Bool) (re : Re) (s : String) : List String :=
  (findAllGo ic re s.data 0 (s.data.length + 2)).map (fun r => capGet r.2.2 1)

/-- The text of the whole match (group 0) of a search result. -/
def matchedText (s : String) (r : Nat × Nat × Caps) : String :=
  CocoOrders.pySlice s r.1 r.2.1

/-! ### Pattern-building helpers -/

/-- A literal string as a regex. -/
def rstr (s : String) : Re := s.data.foldr (fun c r => Re.seq (.tok (.lit c)) r) .eps

/-- Sequence of a list of regexes. -/
def rseqL (l : List Re) : Re := l.foldr Re.seq .eps

/-- Alternation of a non-empty list, left to right. -/
def raltL (l : List Re) : Re :=
  match l with
  | [] => .eps
  | [r] => r
  | r :: rest => .alt r (raltL rest)

/-- Greedy `a*`. -/
def rstarG (a : Re) : Re := .star false a

/-- Lazy `a*?`. -/
def rstarL (a : Re) : Re := .star true a

/-- Greedy `a+`. -/
def rplusG (a : Re) : Re := .seq a (rstarG a)

/-- Lazy `a+?`. -/
def rplusL (a : Re) : Re := .seq a (rstarL a)

/-- Greedy `a?`. -/
def roptG (a : Re) : Re := .alt a .eps

/-- `a{n}`. -/
def rrep (a : Re) (n : Nat) : Re := (List.replicate n a).foldr Re.seq .eps

/-- `a{n,}` (greedy). -/
def ratLeast (a : Re) (n : Nat) : Re := .seq (rrep a n) (rstarG a)

/-- `\d`. -/
def cDigit : RC := .cls false [.digit]

/-- `\s`. -/
def cSpace : RC := .cls false [.space]

/-- `[\w\s]`. -/
def cWordSp : RC := .cls false [.word, .space]

/-- `[:\s]`. -/
def cColonSp : RC := .cls false [.ch ':', .space]

/-- `[0-9.-]`. -/
def cNumDotDash : RC := .cls false [.digit, .ch '.', .ch '-']

/-- `[,\s]`. -/
def cCommaSp : RC := .cls false [.ch ',', .space]

/-! ## `backend/utils/whatsapp_parser.py` -/

namespace WhatsAppParser

/-- `-?\d+\.?\d*`, the coordinate-number shape of the parser's patterns. -/
def rnum : Re := rseqL [roptG (.tok (.lit '-')), rplusG (.tok cDigit),
  roptG (.tok (.lit '.')), rstarG (.tok cDigit)]

/-- `self.patterns['coordinates'][0]`: `(-?\d+\.?\d*)\s*,\s*(-?\d+\.?\d*)`. -/
def coordP1 : Re := rseqL [Re.grp 1 rnum, rstarG (.tok cSpace), .tok (.lit ','),
  rstarG (.tok cSpace), Re.grp 2 rnum]

/-- `self.patterns['coordinates'][1]`:
`lat[itud]*[:\s]*(-?\d+\.?\d*)\s*,?\s*lng?[:\s]*(-?\d+\.?\d*)`. -/
def coordP2 : Re := rseqL [rstr "lat",
  rstarG (.tok (.cls false [.ch 'i', .ch 't', .ch 'u', .ch 'd'])),
  rstarG (.tok cColonSp), Re.grp 1 rnum, rstarG (.tok cSpace),
  roptG (.tok (.lit ',')), rstarG (.tok cSpace),
  rstr "ln", roptG (.tok (.lit 'g')), rstarG (.tok cColonSp), Re.grp 2 rnum]

/-- `self.patterns['coordinates'][2]`:
`ubicación[:\s]*(-?\d+\.?\d*)\s*,\s*(-?\d+\.?\d*)`. -/
def coordP3 : Re := rseqL [rstr "ubicación", rstarG (.tok cColonSp),
  Re.grp 1 rnum, rstarG (.tok cSpace), .tok (.lit ','), rstarG (.tok cSpace),
  Re.grp 2 rnum]

/-- `self.patterns['coordinates']`. -/
def coordPatterns : List Re := [coordP1, coordP2, coordP3]

/-- `[:\s#]`. -/
def cColonSpHash : RC := .cls false [.ch ':', .space, .ch '#']

/-- `self.patterns['client_number']`. -/
def clientNumberPatterns : List Re :=
  [rseqL [rstr "cliente", rstarG (.tok cColonSpHash), Re.grp 1 (rplusG (.tok cDigit))],
   rseqL [rstr "client", roptG (.tok (.lit 'e')), rstarG (.tok cColonSpHash),
     Re.grp 1 (rplusG (.tok cDigit))],
   rseqL [.tok (.lit '#'), Re.grp 1 (rplusG (.tok cDigit))],
   rseqL [rstr "numero", rstarG (.tok cColonSp), Re.grp 1 (rplusG (.tok cDigit))]]

/-- `[0-9\-\s\(\)]`, the phone-body class. -/
def cPhoneBody : RC := .cls false [.digit, .ch '-', .space, .ch '(', .ch ')']

/-- `self.patterns['phone']`: prefix keyword, `[:\s]*`, 10-or-more phone chars. -/
def phonePatterns : List Re :=
  [rseqL [rstr "tel",
     rstarG (.tok (.cls false [.ch 'é', .ch 'e', .ch 'f', .ch 'o', .ch 'n'])),
     rstarG (.tok cColonSp), Re.grp 1 (ratLeast (.tok cPhoneBody) 10)],
   rseqL [rstr "celular", rstarG (.tok cColonSp), Re.grp 1 (ratLeast (.tok cPhoneBody) 10)],
   rseqL [rstr "whatsapp", rstarG (.tok cColonSp), Re.grp 1 (ratLeast (.tok cPhoneBody) 10)],
   rseqL [rstr "contacto", rstarG (.tok cColonSp), Re.grp 1 (ratLeast (.tok cPhoneBody) 10)]]

/-- `(?:\n|tel|cliente|dirección|ubicación|$)`. -/
def nameEndA : Re := raltL [rstr "\n", rstr "tel", rstr "cliente",
  rstr "dirección", rstr "ubicación", Re.eos]

/-- `(?:\n|tel|numero|dirección|ubicación|$)`. -/
def nameEndB : Re := raltL [rstr "\n", rstr "tel", rstr "numero",
  rstr "dirección", rstr "ubicación", Re.eos]

/-- `self.patterns['customer_name']`. -/
def customerNamePatterns : List Re :=
  [rseqL [rstr "nombre", rplusG (.tok cColonSp), Re.grp 1 (rplusL (.tok cWordSp)), nameEndA],
   rseqL [rstr "para", rplusG (.tok cColonSp), Re.grp 1 (rplusL (.tok cWordSp)), nameEndA],
   rseqL [rstr "client", roptG (.tok (.lit 'e')), rplusG (.tok cColonSp),
     Re.grp 1 (rplusL (.tok cWordSp)), nameEndB]]

/-- `(?:\n|precio|total|cantidad|$)`. -/
def refEnd : Re := raltL [rstr "\n", rstr "precio", rstr "total", rstr "cantidad", Re.eos]

/-- `self.patterns['references']`. -/
def referencesPatterns : List Re :=
  [rseqL [rstr "referencia", roptG (.tok (.lit 's')), rplusG (.tok cColonSp),
     Re.grp 1 (rstarL (.tok .any)), refEnd],
   rseqL [rstr "ref", rplusG (.tok cColonSp), Re.grp 1 (rstarL (.tok .any)), refEnd],
   rseqL [rstr "dirección", rplusG (.tok cColonSp), Re.grp 1 (rstarL (.tok .any)), refEnd],
   rseqL [rstr "entre", rplusG (.tok cColonSp), Re.grp 1 (rstarL (.tok .any)), refEnd],
   rseqL [rstr "cerca de", rplusG (.tok cColonSp), Re.grp 1 (rstarL (.tok .any)), refEnd]]

/-- `(?:pzas?|piezas?|unidades?|kg|g|ml|litros?|lts?)`. -/
def unitsAlt : Re := raltL
  [rseqL [rstr "pza", roptG (.tok (.lit 's'))],
   rseqL [rstr "pieza", roptG (.tok (.lit 's'))],
   rseqL [rstr "unidade", roptG (.tok (.lit 's'))],
   rstr "kg", rstr "g", rstr "ml",
   rseqL [rstr "litro", roptG (.tok (.lit 's'))],
   rseqL [rstr "lt", roptG (.tok (.lit 's'))]]

/-- `(?:\n|\$|precio|total|$)`. -/
def prodEnd : Re := raltL [rstr "\n", .tok (.lit '$'), rstr "precio", rstr "total", Re.eos]

/-- `self.patterns['product_quantity']`. -/
def productQuantityPatterns : List Re :=
  [rseqL [Re.grp 1 (rplusG (.tok cDigit)), rstarG (.tok cSpace), unitsAlt,
     rplusG (.tok cSpace), Re.grp 2 (rplusL (.tok .any)), prodEnd],
   rseqL [Re.grp 1 (rplusL (.tok .any)), rplusG (.tok cSpace),
     Re.grp 2 (rplusG (.tok cDigit)), rstarG (.tok cSpace), unitsAlt, prodEnd],
   rseqL [rstr "cantidad", rstarG (.tok cColonSp), Re.grp 1 (rplusG (.tok cDigit)),
     rstarG (.tok cSpace), roptG (rseqL [rstr "de", rplusG (.tok cSpace)]),
     Re.grp 2 (rplusL (.tok .any)), prodEnd]]

/-- `([0-9]+(?:\.[0-9]{2})?)`, the money-amount group. -/
def moneyGrp : Re := Re.grp 1 (rseqL [rplusG (.tok cDigit),
  roptG (rseqL [.tok (.lit '.'), rrep (.tok cDigit) 2])])

/-- `self.patterns['prices']`. -/
def pricesPatterns : List Re :=
  [rseqL [.tok (.lit '$'), rstarG (.tok cSpace), moneyGrp],
   rseqL [rstr "precio", rstarG (.tok cColonSp), roptG (.tok (.lit '$')),
     rstarG (.tok cSpace), moneyGrp],
   rseqL [rstr "total", rstarG (.tok cColonSp), roptG (.tok (.lit '$')),
     rstarG (.tok cSpace), moneyGrp],
   rseqL [moneyGrp, rstarG (.tok cSpace), rstr "pesos"]]

/-- `[0-9]{1,2}:[0-9]{2}`, the clock-time shape. -/
def timeRe : Re := rseqL [.tok cDigit, roptG (.tok cDigit), .tok (.lit ':'),
  rrep (.tok cDigit) 2]

/-- `self.patterns['delivery_time'][0]`. -/
def deliveryTimeP1 : Re := rseqL
  [raltL [rstr "entrega", rstr "delivery", rstr "envío"],
   rstarG (.tok cColonSp), Re.grp 1 timeRe, rstarG (.tok cSpace),
   raltL [rseqL [rstr "hr", roptG (.tok (.lit 's'))],
          rseqL [rstr "hora", roptG (.tok (.lit 's'))],
          rstr "am", rstr "pm"]]

/-- `self.patterns['delivery_time'][1]`: `entre\s+(..)\s*y\s*(..)`. -/
def deliveryTimeP2 : Re := rseqL [rstr "entre", rplusG (.tok cSpace),
  Re.grp 1 timeRe, rstarG (.tok cSpace), .tok (.lit 'y'), rstarG (.tok cSpace),
  Re.grp 2 timeRe]

/-- `(?:\n|precio|total|$)`. -/
def instrEnd : Re := raltL [rstr "\n", rstr "precio", rstr "total", Re.eos]

/-- `self.patterns['special_instructions']`. -/
def specialInstructionsPatterns : List Re :=
  [rseqL [rstr "nota", roptG (.tok (.lit 's')), rplusG (.tok cColonSp),
     Re.grp 1 (rstarL (.tok .any)), instrEnd],
   rseqL [rstr "instruccione", roptG (.tok (.lit 's')), rplusG (.tok cColonSp),
     Re.grp 1 (rstarL (.tok .any)), instrEnd],
   rseqL [rstr "comentario", roptG (.tok (.lit 's')), rplusG (.tok cColonSp),
     Re.grp 1 (rstarL (.tok .any)), instrEnd],
   rseqL [rstr "observación", roptG (.tok (.cls false [.ch 'e', .ch 's'])),
     rplusG (.tok cColonSp), Re.grp 1 (rstarL (.tok .any)), instrEnd]]

/-- `self.known_products`: category to keyword list. -/
def knownProducts : List (String × List String) :=
  [("croquetas", ["croquetas", "alimento", "comida perro"]),
   ("collar", ["collar", "correa"]),
   ("juguete", ["juguete", "pelota", "hueso"]),
   ("shampoo", ["shampoo", "champú", "jabón"])]

/-- One entry of `ParsedOrder.products` (the dict built by `_extract_products`). -/
structure WpProduct where
  name : String
  quantity : ℤ
  unit : String
  price : Option ℚ
deriving DecidableEq, Repr

/-- The `customer_info` dict (absent keys are `none`). -/
structure WpCustomerInfo where
  name : Option String
  phone : Option String
  client_number : Option String
deriving DecidableEq, Repr

/-- The `delivery_info` dict (absent keys are `none`). -/
structure WpDeliveryInfo where
  reference : Option String
  preferred_time : Option String
  time_range : Option String
  special_instructions : Option String
deriving DecidableEq, Repr

/-- The `payment_info` dict (absent keys are `none` / `[]`). -/
structure WpPaymentInfo where
  total : Option ℚ
  subtotals : List ℚ
  method : Option String
deriving DecidableEq, Repr

/-- The `metadata` dict of a fully parsed message. -/
structure WpMetadata where
  original_message : String
  cleaned_message : String
  message_length : ℕ
  parsed_at : String
  products_found : Option ℕ
  validation_completed : Bool
  final_confidence : ℚ
deriving DecidableEq, Repr

/-- The `ParsedOrder` dataclass. -/
structure ParsedOrder where
  coordinates : Option (ℚ × ℚ)
  products : List WpProduct
  customer_info : WpCustomerInfo
  delivery_info : WpDeliveryInfo
  payment_info : WpPaymentInfo
  metadata : WpMetadata
  confidence : ℚ
  errors : List String
  warnings : List String
deriving DecidableEq, Repr

/-- Python truthiness of an optional string (`None` and `""` are falsy). -/
def truthyS : Option String → Bool
  | none => false
  | some s => !(s == "")

/-- Python truthiness of an optional float (`None` and `0.0` are falsy). -/
def truthyQ : Option ℚ → Bool
  | none => false
  | some q => !(q == 0)

/-- `_clean_message`: lower-case, replace characters outside
`[\w\s\n\$\.,:\-\(\)#]` by a space, collapse whitespace runs to one space,
collapse newline runs to one newline, strip. -/
def clean_message (message : String) : String :=
  let allowed := fun (c : Char) =>
    pyIsWord c || pyIsSpace c || c == '\n' || c == '$' || c == '.' || c == ',' ||
    c == ':' || c == '-' || c == '(' || c == ')' || c == '#'
  let step1 := (pyLower message).data
  let step2 := step1.map (fun c => if allowed c then c else ' ')
  let step3 := collapseRuns pyIsSpace ' ' step2
  let step4 := collapseRuns (fun c => c == '\n') '\n' step3
  pyStrip ⟨step4⟩

/-- The body of `_extract_coordinates`'s inner loop over one pattern's
matches: a float `ValueError` aborts the whole loop (the surrounding `try`),
an out-of-range pair moves on to the next match. -/
def scanCoordMatches : List (String × String) → Option (ℚ × ℚ)
  | [] => none
  | (a, b) :: rest =>
    match pyFloat a, pyFloat b with
    | some lat, some lng =>
      if (-120 ≤ lng ∧ lng ≤ -80) ∧ (10 ≤ lat ∧ lat ≤ 35) then some (lat, lng)
      else scanCoordMatches rest
    | _, _ => none

/-- `_extract_coordinates`: first pattern whose matches contain an in-range
(approximate Mexico bounding box) pair wins. -/
def extract_coordinates (message : String) : Option (ℚ × ℚ) :=
  let go : List Re → Option (ℚ × ℚ) := fun ps =>
    ps.foldr
      (fun p rest =>
        match scanCoordMatches (reFindAll2 false p message) with
        | some c => some c
        | none => rest)
      none
  go coordPatterns

/-- `_extract_customer_info`: first name pattern whose stripped, title-cased
capture is longer than 2; first phone pattern whose digit-only capture has at
least 10 digits; first client-number pattern match. -/
def extract_customer_info (message : String) : WpCustomerInfo :=
  let name := customerNamePatterns.foldr
    (fun p rest =>
      match reSearch false p message with
      | some r =>
        let n := pyTitle (pyStrip (capGet r.2.2 1))
        if n.length > 2 then some n else rest
      | none => rest)
    none
  let phone := phonePatterns.foldr
    (fun p rest =>
      match reSearch false p message with
      | some r =>
        let ph : String := ⟨(capGet r.2.2 1).data.filter Char.isDigit⟩
        if ph.length ≥ 10 then some ph else rest
      | none => rest)
    none
  let client := clientNumberPatterns.foldr
    (fun p rest =>
      match reSearch false p message with
      | some r => some (capGet r.2.2 1)
      | none => rest)
    none
  { name := name, phone := phone, client_number := client }

/-- `_normalize_product_name`: a known-product keyword hit returns the
title-cased category; otherwise stop words are removed, whitespace collapsed,
and names of length `≤ 2` are rejected (`None`). -/
def normalize_product_name (product_name : String) : Option String :=
  let pn := pyStrip (pyLower product_name)
  let hit := knownProducts.foldr
    (fun ck rest =>
      match ck.2.find? (fun kw => pyContains pn kw) with
      | some _ => some (pyTitle ck.1)
      | none => rest)
    none
  match hit with
  | some category => some category
  | none =>
    let dropped := dropStopWords pn.data
    let cleaned := pyStrip ⟨collapseRuns pyIsSpace ' ' dropped⟩
    if cleaned.length > 2 then some (pyTitle cleaned) else none

/-- `_get_text_around_product`: a window of `window` characters around the
first (case-insensitive) occurrence of the product name, else the whole
message. -/
def get_text_around_product (message product_name : String) (window : ℕ) : String :=
  match reSearch true (rstr product_name) message with
  | some r => pySlice message (r.1 - window) (min message.length (r.2.1 + window))
  | none => message

/-- `_extract_unit`: first unit `u` such that `product_name.*?(\d+)\s*u`
matches (IGNORECASE); defaults to `piezas`. -/
def extract_unit (message product_name : String) : String :=
  let units := ["pzas", "piezas", "unidades", "kg", "g", "ml", "litros", "lts"]
  (units.foldr
    (fun u rest =>
      let p := rseqL [rstr product_name, rstarL (.tok .any),
        Re.grp 1 (rplusG (.tok cDigit)), rstarG (.tok cSpace), rstr u]
      match reSearch true p message with
      | some _ => some u
      | none => rest)
    none).getD "piezas"

/-- `_extract_product_price`: first price pattern matching in a 50-character
window around the product name. -/
def extract_product_price (message product_name : String) : Option ℚ :=
  let area := get_text_around_product message product_name 50
  pricesPatterns.foldr
    (fun p rest =>
      match reSearch false p area with
      | some r =>
        match pyFloat (capGet r.2.2 1) with
        | some v => some v
        | none => rest
      | none => rest)
    none

/-- The body of `_extract_products`' per-match step: decide which group is
the quantity, normalize the name, and keep the entry only when the name
normalized to something and the quantity is positive (an `int` `ValueError`
skips the match). -/
def productOfMatch (message : String) (m : String × String) : Option WpProduct :=
  let parsed : Option (String × ℤ) :=
    if pyIsDigit m.1 then
      some (pyStrip m.2, (natOfDigits m.1.data : ℤ))
    else
      match pyInt m.2 with
      | some q => some (pyStrip m.1, q)
      | none => none
  match parsed with
  | none => none
  | some (rawName, quantity) =>
    match normalize_product_name rawName with
    | none => none
    | some product_name =>
      if quantity > 0 then
        some { name := product_name, quantity := quantity,
               unit := extract_unit message product_name,
               price := extract_product_price message product_name }
      else none

/-- `_extract_products`: accumulate entries over the three
quantity-and-product patterns, in order. -/
def extract_products (message : String) : List WpProduct :=
  productQuantityPatterns.foldl
    (fun acc p => acc ++ (reFindAll2 false p message).filterMap (productOfMatch message))
    []

/-- `_extract_delivery_info`. -/
def extract_delivery_info (message : String) : WpDeliveryInfo :=
  let reference := referencesPatterns.foldr
    (fun p rest =>
      match reSearch false p message with
      | some r =>
        let v := pyStrip (capGet r.2.2 1)
        if v.length > 5 then some v else rest
      | none => rest)
    none
  let time : Option String × Option String :=
    match reSearch false deliveryTimeP1 message with
    | some r => (some (capGet r.2.2 1), none)
    | none =>
      match reSearch false deliveryTimeP2 message with
      | some r => (none, some (capGet r.2.2 1 ++ " - " ++ capGet r.2.2 2))
      | none => (none, none)
  let instructions := specialInstructionsPatterns.foldr
    (fun p rest =>
      match reSearch false p message with
      | some r =>
        let v := pyStrip (capGet r.2.2 1)
        if v.length > 3 then some v else rest
      | none => rest)
    none
  { reference := reference, preferred_time := time.1, time_range := time.2,
    special_instructions := instructions }

/-- `_extract_payment_info`: collect every money-like match of every price
pattern (a `float` `ValueError` skips the match), take the maximum as the
total, keep the whole list as subtotal candidates, and detect the payment
method by keyword containment. -/
def extract_payment_info (message : String) : WpPaymentInfo :=
  let prices := pricesPatterns.foldl
    (fun acc p => acc ++ (reFindAll1 false p message).filterMap pyFloat)
    []
  let totals : Option ℚ × List ℚ :=
    match prices with
    | [] => (none, [])
    | q :: rest => (some (rest.foldl max q), prices)
  let methods : List (String × List String) :=
    [("efectivo", ["efectivo", "cash", "dinero"]),
     ("tarjeta", ["tarjeta", "card", "bancario"]),
     ("transferencia", ["transferencia", "transfer", "depósito"])]
  let method := methods.foldr
    (fun mk rest =>
      match mk.2.find? (fun kw => pyContains message kw) with
      | some _ => some mk.1
      | none => rest)
    none
  { total := totals.1, subtotals := totals.2, method := method }

/-- `_validate_parsed_data`: the in-place mutation of the result, modelled
functionally. The order of checks and of confidence multiplications follows
the source line by line. -/
def validate_parsed_data (r : ParsedOrder) : ParsedOrder :=
  let noProducts := r.products.isEmpty
  let errors2 := if noProducts then r.errors ++ ["No se identificaron productos en el mensaje"] else r.errors
  let confA := if noProducts then r.confidence * (1/10) else r.confidence
  let warnings2 := if r.coordinates.isSome then r.warnings
    else r.warnings ++ ["No se encontraron coordenadas de entrega"]
  let weak := !truthyS r.customer_info.name && !truthyS r.customer_info.phone
  let warnings3 := if weak then warnings2 ++ ["Información limitada del cliente"] else warnings2
  let confB := if weak then confA * (4/5) else confA
  let warnings4 :=
    match r.payment_info.total with
    | some t =>
      if t ≠ 0 ∧ (t < 10 ∨ t > 10000) then
        warnings3 ++ ["Total parece inusual: $" ++ toString t]
      else warnings3
    | none => warnings3
  let confC := if errors2.isEmpty then confB else confB * (1/2)
  let confD := if warnings4.isEmpty then confC else confC * (9/10)
  { r with
    errors := errors2
    warnings := warnings4
    confidence := confD
    metadata := { r.metadata with validation_completed := true, final_confidence := confD } }

/-- `parse_message`: the top-level never-throwing parse. `datetime.now()` is
the explicit `now` argument. -/
def parse_message (message now : String) : ParsedOrder :=
  let clean := clean_message message
  let coords := extract_coordinates clean
  let customer := extract_customer_info clean
  let products := extract_products clean
  let delivery := extract_delivery_info clean
  let payment := extract_payment_info clean
  let conf :=
    (if coords.isSome then (1/4 : ℚ) else 0) +
    (if truthyS customer.name || truthyS customer.phone then (3/20 : ℚ) else 0) +
    (if products.isEmpty then 0 else (7/20 : ℚ)) +
    (if truthyS delivery.reference || truthyS delivery.preferred_time ||
        truthyS delivery.time_range || truthyS delivery.special_instructions
     then (3/20 : ℚ) else 0) +
    (if truthyQ payment.total || truthyS payment.method then (1/10 : ℚ) else 0)
  validate_parsed_data
    { coordinates := coords
      products := products
      customer_info := customer
      delivery_info := delivery
      payment_info := payment
      metadata :=
        { original_message := message
          cleaned_message := clean
          message_length := message.length
          parsed_at := now
          products_found := if products.isEmpty then none else some products.length
          validation_completed := false
          final_confidence := 0 }
      confidence := conf
      errors := if products.isEmpty then ["No se encontraron productos válidos"] else []
      warnings := if coords.isSome then [] else ["No se encontraron coordenadas"] }

end WhatsAppParser

/-! ## `backend/utils/coordinates_extractor.py` -/

namespace CoordinatesExtractor

/-- `[0-9.-]+` as a group. -/
def numGrp (n : Nat) : Re := Re.grp n (rplusG (.tok cNumDotDash))

/-- `self.patterns['google_maps_direct']`:
`https://maps\.google\.com/\?q=([0-9.-]+),([0-9.-]+)`. -/
def googleMapsDirect : Re := rseqL [rstr "https://maps.google.com/?q=",
  numGrp 1, .tok (.lit ','), numGrp 2]

/-- `self.patterns['google_maps_coordinates']`:
`https://www\.google\.com/maps/.*@([0-9.-]+),([0-9.-]+)`. -/
def googleMapsCoordinates : Re := rseqL [rstr "https://www.google.com/maps/",
  rstarG (.tok .any), .tok (.lit '@'), numGrp 1, .tok (.lit ','), numGrp 2]

/-- `self.patterns['google_maps_place']`:
`https://maps\.google\.com/maps\?.*ll=([0-9.-]+),([0-9.-]+)`. -/
def googleMapsPlace : Re := rseqL [rstr "https://maps.google.com/maps?",
  rstarG (.tok .any), rstr "ll=", numGrp 1, .tok (.lit ','), numGrp 2]

/-- `self.patterns['coordinates_text']`:
`(?:lat|latitude|coord)[:\s]*([0-9.-]+)[,\s]+(?:lng|longitude|long)[:\s]*([0-9.-]+)`. -/
def coordinatesText : Re := rseqL
  [raltL [rstr "lat", rstr "latitude", rstr "coord"],
   rstarG (.tok cColonSp), numGrp 1, rplusG (.tok cCommaSp),
   raltL [rstr "lng", rstr "longitude", rstr "long"],
   rstarG (.tok cColonSp), numGrp 2]

/-- `self.patterns['simple_coordinates']`:
`([0-9]{2}\.[0-9]+)[,\s]+(-[0-9]{2}\.[0-9]+)`. -/
def simpleCoordinates : Re := rseqL
  [Re.grp 1 (rseqL [rrep (.tok cDigit) 2, .tok (.lit '.'), rplusG (.tok cDigit)]),
   rplusG (.tok cCommaSp),
   Re.grp 2 (rseqL [.tok (.lit '-'), rrep (.tok cDigit) 2, .tok (.lit '.'),
     rplusG (.tok cDigit)])]

/-- `self.patterns['decimal_coordinates']`:
`([0-9]+\.[0-9]+)[,\s]+(-[0-9]+\.[0-9]+)`. -/
def decimalCoordinates : Re := rseqL
  [Re.grp 1 (rseqL [rplusG (.tok cDigit), .tok (.lit '.'), rplusG (.tok cDigit)]),
   rplusG (.tok cCommaSp),
   Re.grp 2 (rseqL [.tok (.lit '-'), rplusG (.tok cDigit), .tok (.lit '.'),
     rplusG (.tok cDigit)])]

/-- `[a-zA-Z0-9]`. -/
def cUrlTail : RC := .cls false [.range 'a' 'z', .range 'A' 'Z', .digit]

/-- `self.patterns['google_short_url']`: `https://goo\.gl/maps/[a-zA-Z0-9]+`. -/
def googleShortUrl : Re := rseqL [rstr "https://goo.gl/maps/", rplusG (.tok cUrlTail)]

/-- `self.patterns['google_share_url']`: `https://maps\.app\.goo\.gl/[a-zA-Z0-9]+`. -/
def googleShareUrl : Re := rseqL [rstr "https://maps.app.goo.gl/", rplusG (.tok cUrlTail)]

/-- `_validate_coordinates`: the Cancún service-area bounding box. -/
def validate_coordinates (lat lng : ℚ) : Bool :=
  ((20.5 : ℚ) ≤ lat ∧ lat ≤ (21.5 : ℚ)) ∧ ((-87.5 : ℚ) ≤ lng ∧ lng ≤ (-86.5 : ℚ))

/-- One `re.search`-then-validate step of the direct-URL / plain-text
extractors: a float `ValueError` or an out-of-box pair falls through. -/
def tryPattern (ic : Bool) (p : Re) (text : String) : Option (ℚ × ℚ) :=
  match reSearch ic p text with
  | some r =>
    match pyFloat (capGet r.2.2 1), pyFloat (capGet r.2.2 2) with
    | some lat, some lng => if validate_coordinates lat lng then some (lat, lng) else none
    | _, _ => none
  | none => none

/-- `_extract_from_direct_url`: the three URL patterns in order. -/
def extract_from_direct_url (text : String) : Option (ℚ × ℚ) :=
  (tryPattern true googleMapsDirect text).orElse (fun _ =>
    (tryPattern true googleMapsCoordinates text).orElse (fun _ =>
      tryPattern true googleMapsPlace text))

/-- `_extract_from_text`: labelled pair, simple pair, general decimal pair. -/
def extract_from_text (text : String) : Option (ℚ × ℚ) :=
  (tryPattern true coordinatesText text).orElse (fun _ =>
    (tryPattern false simpleCoordinates text).orElse (fun _ =>
      tryPattern false decimalCoordinates text))

/-- `_expand_short_url`: the one bounded network request, modelled by the
`resolve` collaborator (`none` is any timeout / non-200 / request error,
silently swallowed), followed by re-running the direct-URL extractor on the
resolved URL. -/
def expand_short_url (resolve : String → Option String) (short_url : String) :
    Option (ℚ × ℚ) :=
  match resolve short_url with
  | some final_url => extract_from_direct_url final_url
  | none => none

/-- `_extract_from_short_url`: collect the (at most two) shortened links,
consult the cache, then expand. -/
def extract_from_short_url (resolve : String → Option String)
    (cache : List (String × (ℚ × ℚ))) (text : String) : Option (ℚ × ℚ) :=
  let short_urls :=
    (match reSearch false googleShortUrl text with
     | some r => [matchedText text r]
     | none => []) ++
    (match reSearch false googleShareUrl text with
     | some r => [matchedText text r]
     | none => [])
  short_urls.foldr
    (fun url rest =>
      match cache.find? (fun p => p.1 == url) with
      | some p => some p.2
      | none =>
        match expand_short_url resolve url with
        | some coords => some coords
        | none => rest)
    none

/-- The fixed gazetteer of `_extract_cancun_specific`. -/
def cancunLocations : List (String × (ℚ × ℚ)) :=
  [("centro", (21.1619, -86.8515)),
   ("zona hotelera", (21.1692, -86.8980)),
   ("aeropuerto", (21.0365, -86.8770)),
   ("downtown", (21.1619, -86.8515)),
   ("hotel zone", (21.1692, -86.8980)),
   ("playa delfines", (21.1325, -86.7739)),
   ("playa norte", (21.2417, -86.7468)),
   ("mercado 28", (21.1653, -86.8467)),
   ("parque de las palapas", (21.1613, -86.8472))]

/-- `_extract_cancun_specific`: first gazetteer name contained in the
case-folded text wins. -/
def extract_cancun_specific (text : String) : Option (ℚ × ℚ) :=
  let text_lower := pyLower text
  ((cancunLocations.find? (fun lc => pyContains text_lower lc.1)).map Prod.snd)

/-- `extract_coordinates`: empty text short-circuits; otherwise the four
strategies run in priority order on the stripped text, first success wins. -/
def extract_coordinates (resolve : String → Option String)
    (cache : List (String × (ℚ × ℚ))) (text : String) : Option (ℚ × ℚ) :=
  if text == "" then none
  else
    let t := pyStrip text
    (extract_from_direct_url t).orElse (fun _ =>
      (extract_from_text t).orElse (fun _ =>
        (extract_from_short_url resolve cache t).orElse (fun _ =>
          extract_cancun_specific t)))

end CoordinatesExtractor

/-! ## `backend/models/nlp_processor.py` -/

namespace NLPProcessor

/-- A row of the external product source (`database.models.Product`). -/
structure DbProduct where
  id : ℕ
  name : String
  brand : String
  category : String
  weight_size : Option String
  price : ℚ
  is_active : Bool
deriving DecidableEq, Repr

/-- One value of `self.products_cache`. -/
structure NlpProductInfo where
  name : String
  brand : String
  category : String
  weight_size : Option String
  price : ℚ
  search_text : String
deriving DecidableEq, Repr

/-- The processor's product-index state: `self.products_cache` (a dict in
insertion order), `self.product_names`, and `self.product_embeddings`
(represented by the fitted corpus, the list of search texts). -/
structure NlpState where
  products_cache : List (ℕ × NlpProductInfo)
  product_names : List String
  product_embeddings : Option (List String)
deriving DecidableEq, Repr

/-- The state right after `__init__` (before `_load_products`). -/
def initState : NlpState :=
  { products_cache := [], product_names := [], product_embeddings := none }

/-- The external collaborators: the TF-IDF similarity model
(`cosine_similarity` of the message against the fitted corpus, one score per
corpus row) and `fuzzywuzzy`'s `fuzz.partial_ratio`. -/
structure NlpOracles where
  tfidfSims : List String → String → List ℚ
  partial_ratio : String → String → ℕ

/-- Python dict insert: overwrite in place, else append. -/
def dictInsert (d : List (ℕ × NlpProductInfo)) (e : ℕ × NlpProductInfo) :
    List (ℕ × NlpProductInfo) :=
  if d.any (fun p => p.1 == e.1) then
    d.map (fun p => if p.1 == e.1 then e else p)
  else d ++ [e]

/-- The search text of one product (name, brand, category, and the weight
descriptor when truthy). -/
def searchTextOf (p : DbProduct) : String :=
  let base := p.name ++ " " ++ p.brand ++ " " ++ p.category
  match p.weight_size with
  | some w => if w == "" then base else base ++ " " ++ w
  | none => base

/-- `_load_products`: `self.products_cache` is rebuilt from scratch and the
embeddings are refitted when the corpus is non-empty — but the source only
ever APPENDS to `self.product_names`, so earlier names survive a refresh. -/
def load_products (products : List DbProduct) (st : NlpState) : NlpState :=
  let active := products.filter (fun p => p.is_active)
  let cache := active.foldl
    (fun acc p => dictInsert acc
      (p.id,
       { name := p.name, brand := p.brand, category := p.category,
         weight_size := p.weight_size, price := p.price,
         search_text := pyLower (searchTextOf p) }))
    []
  let texts := active.map (fun p => pyLower (searchTextOf p))
  { products_cache := cache
    product_names := st.product_names ++ active.map (fun p => pyLower p.name)
    product_embeddings := if texts.isEmpty then st.product_embeddings else some texts }

/-- `refresh_products_cache` (just `_load_products` again). -/
def refresh_products_cache (products : List DbProduct) (st : NlpState) : NlpState :=
  load_products products st

/-- `_clean_message`: replace characters outside `[\w\s.,:\-()/$]` by a
space, collapse whitespace, lower-case, strip. -/
def clean_message (message : String) : String :=
  let allowed := fun (c : Char) =>
    pyIsWord c || pyIsSpace c || c == '.' || c == ',' || c == ':' || c == '-' ||
    c == '(' || c == ')' || c == '/' || c == '$'
  let step1 := message.data.map (fun c => if allowed c then c else ' ')
  let step2 := collapseRuns pyIsSpace ' ' step1
  pyStrip (pyLower ⟨step2⟩)

/-- `https://maps\.google\.com/\?q=([0-9.-]+),([0-9.-]+)`. -/
def nlpCoordP1 : Re := rseqL [rstr "https://maps.google.com/?q=",
  Re.grp 1 (rplusG (.tok cNumDotDash)), .tok (.lit ','),
  Re.grp 2 (rplusG (.tok cNumDotDash))]

/-- `https://goo\.gl/maps/[a-zA-Z0-9]+` (the pattern the code skips without
extracting, because the URL must be expanded first). -/
def nlpCoordGoo : Re := rseqL [rstr "https://goo.gl/maps/",
  rplusG (.tok (.cls false [.range 'a' 'z', .range 'A' 'Z', .digit]))]

/-- `ubicación[:\s]*([0-9.-]+)[,\s]+([0-9.-]+)`. -/
def nlpCoordP3 : Re := rseqL [rstr "ubicación", rstarG (.tok cColonSp),
  Re.grp 1 (rplusG (.tok cNumDotDash)), rplusG (.tok cCommaSp),
  Re.grp 2 (rplusG (.tok cNumDotDash))]

/-- `coordenadas[:\s]*([0-9.-]+)[,\s]+([0-9.-]+)`. -/
def nlpCoordP4 : Re := rseqL [rstr "coordenadas", rstarG (.tok cColonSp),
  Re.grp 1 (rplusG (.tok cNumDotDash)), rplusG (.tok cCommaSp),
  Re.grp 2 (rplusG (.tok cNumDotDash))]

/-- `([0-9]{2}\.[0-9]+)[,\s]+(-[0-9]{2}\.[0-9]+)`. -/
def nlpCoordP5 : Re := rseqL
  [Re.grp 1 (rseqL [rrep (.tok cDigit) 2, .tok (.lit '.'), rplusG (.tok cDigit)]),
   rplusG (.tok cCommaSp),
   Re.grp 2 (rseqL [.tok (.lit '-'), rrep (.tok cDigit) 2, .tok (.lit '.'),
     rplusG (.tok cDigit)])]

/-- The default `google_maps_patterns` list; the flag marks the shortened-URL
pattern, which the loop skips (`continue`) instead of reading groups. -/
def nlpCoordPatterns : List (Bool × Re) :=
  [(false, nlpCoordP1), (true, nlpCoordGoo), (false, nlpCoordP3),
   (false, nlpCoordP4), (false, nlpCoordP5)]

/-- `_extract_coordinates`: first pattern (searched with IGNORECASE) whose
floats lie in the Cancún / Riviera Maya box; the shortened-URL pattern and
every failure `continue` to the next pattern. -/
def extract_coordinates (message : String) : Option (ℚ × ℚ) :=
  nlpCoordPatterns.foldr
    (fun bp rest =>
      match reSearch true bp.2 message with
      | some r =>
        if bp.1 then rest
        else
          match pyFloat (capGet r.2.2 1), pyFloat (capGet r.2.2 2) with
          | some lat, some lng =>
            if ((20.5 : ℚ) ≤ lat ∧ lat ≤ (21.5 : ℚ)) ∧
               ((-87.5 : ℚ) ≤ lng ∧ lng ≤ (-86.5 : ℚ)) then
              some (lat, lng)
            else rest
          | _, _ => rest
      | none => rest)
    none

/-- One similarity candidate of `_find_similar_products`. -/
structure NlpMatch where
  product_id : ℕ
  product : NlpProductInfo
  confidence : ℚ
  matched_text : String
  method : String
deriving DecidableEq, Repr

/-- Stable descending insertion (Python `sorted(..., reverse=True)`). -/
def insDesc {α : Type} (key : α → ℚ) (x : α) : List α → List α
  | [] => [x]
  | y :: ys => if key y < key x then x :: y :: ys else y :: insDesc key x ys

/-- Stable descending sort by a key. -/
def sortDesc {α : Type} (key : α → ℚ) (l : List α) : List α :=
  l.foldl (fun acc x => insDesc key x acc) []

/-- Keep-the-maximum dict update used by the dedup loops (a strictly larger
confidence overwrites in place, first occurrence fixes the position). -/
def dedupMax (l : List NlpMatch) : List NlpMatch :=
  l.foldl
    (fun acc m =>
      if acc.any (fun x => x.product_id == m.product_id) then
        acc.map (fun x =>
          if x.product_id == m.product_id ∧ m.confidence > x.confidence then m else x)
      else acc ++ [m])
    []

/-- `brand.*?([0-9]+)\s*(kg|g|ml)` for a given brand string. -/
def brandWeightRe (brand : String) : Re := rseqL [rstr brand, rstarL (.tok .any),
  Re.grp 1 (rplusG (.tok cDigit)), rstarG (.tok cSpace),
  Re.grp 2 (raltL [rstr "kg", rstr "g", rstr "ml"])]

/-- `([0-9]+)`. -/
def firstNumberRe : Re := Re.grp 1 (rplusG (.tok cDigit))

/-- `_find_similar_products`: TF-IDF similarity over the whole message, then
per-product fuzzy name similarity and brand+weight co-occurrence, then
dedup-by-id keeping the maximum confidence, sorted by confidence
descending. -/
def find_similar_products (o : NlpOracles) (threshold : ℚ) (st : NlpState)
    (message : String) : List NlpMatch :=
  if st.products_cache.isEmpty || st.product_embeddings.isNone then []
  else
    let sims := o.tfidfSims (st.product_embeddings.getD []) message
    let tfidf := (st.products_cache.zip sims).filterMap
      (fun pe =>
        if pe.2 > threshold then
          some { product_id := pe.1.1, product := pe.1.2, confidence := pe.2,
                 matched_text := pe.1.2.search_text, method := "tfidf" }
        else none)
    let perProduct := st.products_cache.flatMap
      (fun pi =>
        let fuzzy :=
          let r := o.partial_ratio message (pyLower pi.2.name)
          if r > 80 then
            [{ product_id := pi.1, product := pi.2, confidence := (r : ℚ) / 100,
               matched_text := pi.2.name, method := "fuzzy_name" : NlpMatch }]
          else []
        let brand :=
          let bp := pyLower pi.2.brand
          if pyContains message bp then
            match reSearch true (brandWeightRe bp) message with
            | some r =>
              match pi.2.weight_size with
              | some w =>
                if w == "" then []
                else
                  match reSearch false firstNumberRe w with
                  | some rw =>
                    if capGet r.2.2 1 == capGet rw.2.2 1 then
                      [{ product_id := pi.1, product := pi.2, confidence := 9/10,
                         matched_text := bp ++ " " ++ capGet r.2.2 1 ++ capGet r.2.2 2,
                         method := "brand_weight" : NlpMatch }]
                    else []
                  | none => []
              | none => []
            | none => []
          else []
        fuzzy ++ brand)
    sortDesc (fun m => m.confidence) (dedupMax (tfidf ++ perProduct))

/-- The message-wide quantity patterns of `_extract_quantity_near_product`. -/
def quantityPatterns : List Re :=
  [rseqL [rstr "cantidad", rstarG (.tok cColonSp), Re.grp 1 (rplusG (.tok cDigit))],
   rseqL [Re.grp 1 (rplusG (.tok cDigit)), rstarG (.tok cSpace), rstr "pieza",
     roptG (.tok (.lit 's'))],
   rseqL [Re.grp 1 (rplusG (.tok cDigit)), rstarG (.tok cSpace), rstr "unidade",
     roptG (.tok (.lit 's'))],
   rseqL [Re.grp 1 (rplusG (.tok cDigit)), rstarG (.tok cSpace), rstr "pza",
     roptG (.tok (.lit 's'))]]

/-- `_extract_quantity_near_product`: when the matched text occurs in the
message, take the first number in a 50-character window around it, capped at
1000; when it does not, fall back to message-wide quantity patterns —
UNCAPPED — and finally default to 1. -/
def extract_quantity_near_product (message product_text : String) : ℕ :=
  match pyFind message (pyLower product_text) with
  | none =>
    (quantityPatterns.foldr
      (fun p rest =>
        match reSearch true p message with
        | some r => some (natOfDigits (capGet r.2.2 1).data)
        | none => rest)
      none).getD 1
  | some product_pos =>
    let start := product_pos - 50
    let stop := min message.length (product_pos + product_text.length + 50)
    let context := pySlice message start stop
    match reFindAll1 false firstNumberRe context with
    | [] => 1
    | n :: _ => min (natOfDigits n.data) 1000

/-- One entry of the parsed-products list. -/
structure NlpProduct where
  product_id : ℕ
  name : String
  brand : String
  category : String
  weight_size : Option String
  price : ℚ
  quantity : ℕ
  confidence : ℚ
  matched_text : String
deriving DecidableEq, Repr

/-- `_extract_products`. -/
def extract_products (o : NlpOracles) (threshold : ℚ) (st : NlpState)
    (message : String) : List NlpProduct :=
  (find_similar_products o threshold st message).map
    (fun m =>
      { product_id := m.product_id, name := m.product.name,
        brand := m.product.brand, category := m.product.category,
        weight_size := m.product.weight_size, price := m.product.price,
        quantity := extract_quantity_near_product message m.matched_text,
        confidence := m.confidence, matched_text := m.matched_text })

/-- The default `client_patterns`. -/
def nlpClientPatterns : List Re :=
  [rseqL [rstr "cliente", rstarG (.tok cColonSp), Re.grp 1 (rplusG (.tok cDigit))],
   rseqL [.tok (.lit '#'), Re.grp 1 (rplusG (.tok cDigit))],
   rseqL [rstr "client", roptG (.tok (.lit 'e')), rstarG (.tok cColonSp),
     Re.grp 1 (rplusG (.tok cDigit))]]

/-- `_extract_client_number`. -/
def extract_client_number (message : String) : Option String :=
  nlpClientPatterns.foldr
    (fun p rest =>
      match reSearch true p message with
      | some r => some (capGet r.2.2 1)
      | none => rest)
    none

/-- `(?:\n|precio|total|$)`. -/
def nlpRefEnd : Re := raltL [rstr "\n", rstr "precio", rstr "total", Re.eos]

/-- The default `reference_patterns` (note `(.+?)` and `[:\s]*` here, unlike
the WhatsApp parser's `(.*?)` and `[:\s]+`). -/
def nlpReferencePatterns : List Re :=
  [rseqL [rstr "referencia", roptG (.tok (.lit 's')), rstarG (.tok cColonSp),
     Re.grp 1 (rplusL (.tok .any)), nlpRefEnd],
   rseqL [rstr "ref", rstarG (.tok cColonSp), Re.grp 1 (rplusL (.tok .any)), nlpRefEnd],
   rseqL [rstr "referencia", roptG (.tok (.lit 's')), rstarG (.tok cColonSp),
     Re.grp 1 (rplusL (.tok .any)), nlpRefEnd]]

/-- `_extract_references`. -/
def extract_references (message : String) : Option String :=
  nlpReferencePatterns.foldr
    (fun p rest =>
      match reSearch true p message with
      | some r => some (pyStrip (capGet r.2.2 1))
      | none => rest)
    none

/-- The patterns of `_extract_total_price`. -/
def nlpTotalPricePatterns : List Re :=
  [rseqL [rstr "total", rstarG (.tok cColonSp), roptG (.tok (.lit '$')),
     Re.grp 1 (rseqL [rplusG (.tok cDigit),
       roptG (rseqL [.tok (.lit '.'), rrep (.tok cDigit) 2])])],
   rseqL [rstr "precio", rstarG (.tok cColonSp), roptG (.tok (.lit '$')),
     Re.grp 1 (rseqL [rplusG (.tok cDigit),
       roptG (rseqL [.tok (.lit '.'), rrep (.tok cDigit) 2])])],
   rseqL [.tok (.lit '$'), Re.grp 1 (rseqL [rplusG (.tok cDigit),
     roptG (rseqL [.tok (.lit '.'), rrep (.tok cDigit) 2])])],
   rseqL [Re.grp 1 (rseqL [rplusG (.tok cDigit),
     roptG (rseqL [.tok (.lit '.'), rrep (.tok cDigit) 2])]),
     rstarG (.tok cSpace), rstr "pesos"]]

/-- `_extract_total_price`. -/
def extract_total_price (message : String) : Option ℚ :=
  nlpTotalPricePatterns.foldr
    (fun p rest =>
      match reSearch true p message with
      | some r =>
        match pyFloat (capGet r.2.2 1) with
        | some v => some v
        | none => rest
      | none => rest)
    none

/-- The dict returned by `parse_whatsapp_message` (a field is `none`/`[]`/`0`
when the corresponding key keeps its initial value). -/
structure NlpParsedData where
  coordinates : Option (ℚ × ℚ)
  products : List NlpProduct
  client_number : Option String
  references : Option String
  total_price : Option ℚ
  raw_message : String
  confidence : ℚ
deriving DecidableEq, Repr

/-- `parse_whatsapp_message`: clean, extract each field, bump the confidence
for each truthy extraction (a falsy value — empty string, `0.0` — keeps the
key at its initial `None`). -/
def parse_whatsapp_message (o : NlpOracles) (threshold : ℚ) (st : NlpState)
    (message : String) : NlpParsedData :=
  let clean := clean_message message
  let coords := extract_coordinates clean
  let products := extract_products o threshold st clean
  let client := extract_client_number clean
  let refs := extract_references clean
  let total := extract_total_price clean
  { coordinates := coords
    products := products
    client_number := if WhatsAppParser.truthyS client then client else none
    references := if WhatsAppParser.truthyS refs then refs else none
    total_price := if WhatsAppParser.truthyQ total then total else none
    raw_message := message
    confidence :=
      (if coords.isSome then (3/10 : ℚ) else 0) +
      (if products.isEmpty then 0 else (2/5 : ℚ)) +
      (if WhatsAppParser.truthyS client then (1/10 : ℚ) else 0) +
      (if WhatsAppParser.truthyS refs then (1/10 : ℚ) else 0) +
      (if WhatsAppParser.truthyQ total then (1/10 : ℚ) else 0) }

/-- One suggested correction. -/
structure NlpSuggestion where
  original_text : String
  suggested_product : String
  product_id : ℕ
  similarity_score : ℕ
  brand : String
  category : String
deriving DecidableEq, Repr

/-- `fuzzywuzzy.process.extract(phrase, names, scorer, limit)`: every name
scored, sorted descending, top `limit`. -/
def processExtract (o : NlpOracles) (phrase : String) (names : List String)
    (limit : ℕ) : List (String × ℕ) :=
  (sortDesc (fun p => (p.2 : ℚ)) (names.map (fun n => (n, o.partial_ratio phrase n)))).take
    limit

/-- The 1-to-3-word phrases of `suggest_product_corrections`. -/
def candidatePhrases (message : String) : List String :=
  ((List.range (pySplitWs message).length).flatMap
    (fun i =>
      (List.range 3).filterMap
        (fun d =>
          let j := i + 1 + d
          if j ≤ (pySplitWs message).length ∧ j ≤ i + 3 then
            some (pyJoinSpace (((pySplitWs message).drop i).take (j - i)))
          else none))).filter
    (fun phrase => phrase.length > 3)

/-- `suggest_product_corrections`: fuzzy-rank 1-to-3-word windows against the
product-name list, keep scores above 60, dedup by suggested product keeping
the maximum score, sort descending, truncate. -/
def suggest_product_corrections (o : NlpOracles) (st : NlpState)
    (message : String) (max_suggestions : ℕ := 3) : List NlpSuggestion :=
  if st.products_cache.isEmpty then []
  else
    let raw := (candidatePhrases message).flatMap
      (fun phrase =>
        (processExtract o phrase st.product_names max_suggestions).filterMap
          (fun ms =>
            if ms.2 > 60 then
              ((st.products_cache.find?
                  (fun pi => pyLower pi.2.name == ms.1)).map
                (fun pi =>
                  { original_text := phrase, suggested_product := pi.2.name,
                    product_id := pi.1, similarity_score := ms.2,
                    brand := pi.2.brand, category := pi.2.category }))
            else none))
    let unique := raw.foldl
      (fun acc s =>
        if acc.any (fun x => x.suggested_product == s.suggested_product) then
          acc.map (fun x =>
            if x.suggested_product == s.suggested_product ∧
               s.similarity_score > x.similarity_score then s else x)
        else acc ++ [s])
      []
    (sortDesc (fun s => (s.similarity_score : ℚ)) unique).take max_suggestions

/-- The dict returned by `validate_parsed_data`. -/
structure NlpValidation where
  is_valid : Bool
  warnings : List String
  errors : List String
  suggested_corrections : List NlpSuggestion
deriving DecidableEq, Repr

/-- `validate_parsed_data`: missing coordinates and missing products are
ERRORS and each sets `is_valid` to `False`; per-product zero quantities and
low overall confidence are warnings. -/
def validate_parsed_data (o : NlpOracles) (st : NlpState) (d : NlpParsedData) :
    NlpValidation :=
  let coordsOk := d.coordinates.isSome
  let prodsOk := !d.products.isEmpty
  let errors :=
    (if coordsOk then [] else ["No se encontraron coordenadas válidas"]) ++
    (if prodsOk then [] else ["No se encontraron productos válidos"])
  let suggested :=
    if prodsOk then [] else suggest_product_corrections o st d.raw_message
  let quantityWarnings :=
    if prodsOk then
      (d.products.filter (fun p => p.quantity = 0)).map
        (fun p => "Cantidad no válida para " ++ p.name ++ ": " ++ toString p.quantity)
    else []
  let confWarnings :=
    if d.confidence < (1/2 : ℚ) then ["Confianza baja en el parsing del mensaje"] else []
  { is_valid := coordsOk && prodsOk
    warnings := quantityWarnings ++ confWarnings
    errors := errors
    suggested_corrections := suggested }

end NLPProcessor

/-! ## Specification-side definitions (for refinement comparisons) -/

/-- The per-distinct-warning-category penalty of the specification's
confidence model: one factor of `9/10` per category. -/
def warnPenalty : ℕ → ℚ
  | 0 => 1
  | n + 1 => (9/10 : ℚ) * warnPenalty n

/-- The confidence model exactly as the specification words it (claim C2):
start at 0, add fixed weights per successful category, multiply by `1/2`
when a hard error is present, by `9/10` per distinct warning category, and
clamp to `[0, 1]`. This definition follows the SPEC's words, to be compared
with the behaviour of `WhatsAppParser.parse_message`. -/
def specConfidenceModel (hasCoords hasProducts hasCustomer hasDelivery hasPayment
    hasError : Bool) (warnCategories : ℕ) : ℚ :=
  let base :=
    (if hasCoords then (1/4 : ℚ) else 0) +
    (if hasProducts then (7/20 : ℚ) else 0) +
    (if hasCustomer then (3/20 : ℚ) else 0) +
    (if hasDelivery then (3/20 : ℚ) else 0) +
    (if hasPayment then (1/10 : ℚ) else 0)
  let afterError := if hasError then base * (1/2) else base
  min 1 (max 0 (afterError * warnPenalty warnCategories))

/-- Is the extracted total truthy and outside the plausible `[10, 10000]`
range (the condition of the unusual-total warning)? -/
def totalImplausibleB : Option ℚ → Bool
  | some t => decide (t ≠ 0 ∧ (t < 10 ∨ t > 10000))
  | none => false

/-- The confidence actually computed by `parse_message` followed by
`_validate_parsed_data`, as a closed-form function of which extraction
categories succeeded: the weight sum, then `×0.1` when no products, `×0.8`
when customer identification is weak, `×0.5` when any error is present
(errors happen exactly when no products matched), and `×0.9` ONCE when any
warning is present. -/
def final_confidence_formula (hasCoords hasCustomer hasProducts hasDelivery
    hasPayment totalImplausible : Bool) : ℚ :=
  let base :=
    (if hasCoords then (1/4 : ℚ) else 0) +
    (if hasCustomer then (3/20 : ℚ) else 0) +
    (if hasProducts then (7/20 : ℚ) else 0) +
    (if hasDelivery then (3/20 : ℚ) else 0) +
    (if hasPayment then (1/10 : ℚ) else 0)
  let a := if hasProducts then base else base * (1/10)
  let b := if hasCustomer then a else a * (4/5)
  let c := if hasProducts then b else b * (1/2)
  if !hasCoords || !hasCustomer || totalImplausible then c * (9/10) else c

/-! ## Concrete fixtures used by closed theorems -/

/-- A sample active catalog product. -/
def sampleProduct : NLPProcessor.DbProduct :=
  { id := 7, name := "Nupec Adulto", brand := "Nupec", category := "alimento",
    weight_size := some "20kg", price := 1800, is_active := true }

/-- Trivial external collaborators (zero similarity everywhere). -/
def zeroOracles : NLPProcessor.NlpOracles :=
  { tfidfSims := fun corpus _ => corpus.map (fun _ => 0),
    partial_ratio := fun _ _ => 0 }

/-- A parsed message with one matched product but no coordinates. -/
def c4data : NLPProcessor.NlpParsedData :=
  { coordinates := none,
    products := [{ product_id := 7, name := "Nupec Adulto", brand := "Nupec",
                   category := "alimento", weight_size := some "20kg",
                   price := 1800, quantity := 1, confidence := 9/10,
                   matched_text := "nupec" }],
    client_number := none, references := none, total_price := none,
    raw_message := "nupec 20kg", confidence := 7/10 }

/-- A `ParsedOrder` with no coordinates and no products. -/
def sampleOrder : WhatsAppParser.ParsedOrder :=
  { coordinates := none, products := [],
    customer_info := { name := none, phone := none, client_number := none },
    delivery_info := { reference := none, preferred_time := none,
                       time_range := none, special_instructions := none },
    payment_info := { total := none, subtotals := [], method := none },
    metadata := { original_message := "", cleaned_message := "",
                  message_length := 0, parsed_at := "t", products_found := none,
                  validation_completed := false, final_confidence := 0 },
    confidence := 0, errors := [], warnings := [] }

/-! ## Helper lemmas -/

section RatBounds

/-- The code's closed-form confidence always lies in `[0, 1]`. -/
lemma final_confidence_formula_bounds (b1 b2 b3 b4 b5 b6 : Bool) :
    0 ≤ final_confidence_formula b1 b2 b3 b4 b5 b6 ∧
    final_confidence_formula b1 b2 b3 b4 b5 b6 ≤ 1 := by
  cases b1 <;> cases b2 <;> cases b3 <;> cases b4 <;> cases b5 <;> cases b6 <;> decide

end RatBounds

section SymbolicParse

attribute [local irreducible] WhatsAppParser.clean_message
  WhatsAppParser.extract_coordinates WhatsAppParser.extract_products
  WhatsAppParser.extract_customer_info WhatsAppParser.extract_delivery_info
  WhatsAppParser.extract_payment_info NLPProcessor.clean_message
  NLPProcessor.extract_coordinates NLPProcessor.extract_products
  NLPProcessor.extract_client_number NLPProcessor.extract_references
  NLPProcessor.extract_total_price

/-- `parse_message` fills `coordinates` from the coordinate extractor. -/
lemma parse_coordinates_eq (message now : String) :
    (WhatsAppParser.parse_message message now).coordinates
      = WhatsAppParser.extract_coordinates (WhatsAppParser.clean_message message) := rfl

/-- `parse_message` fills `products` from the product extractor. -/
lemma parse_products_eq (message now : String) :
    (WhatsAppParser.parse_message message now).products
      = WhatsAppParser.extract_products (WhatsAppParser.clean_message message) := rfl

set_option maxHeartbeats 2000000 in
/-- The confidence of a parsed message is exactly the closed-form
`final_confidence_formula` of which extraction categories succeeded. -/
lemma parse_confidence_eq (message now : String) :
    (WhatsAppParser.parse_message message now).confidence
      = final_confidence_formula
          (WhatsAppParser.extract_coordinates (WhatsAppParser.clean_message message)).isSome
          (WhatsAppParser.truthyS
              (WhatsAppParser.extract_customer_info (WhatsAppParser.clean_message message)).name
            || WhatsAppParser.truthyS
              (WhatsAppParser.extract_customer_info (WhatsAppParser.clean_message message)).phone)
          (!(WhatsAppParser.extract_products (WhatsAppParser.clean_message message)).isEmpty)
          (WhatsAppParser.truthyS
              (WhatsAppParser.extract_delivery_info (WhatsAppParser.clean_message message)).reference
            || WhatsAppParser.truthyS
              (WhatsAppParser.extract_delivery_info (WhatsAppParser.clean_message message)).preferred_time
            || WhatsAppParser.truthyS
              (WhatsAppParser.extract_delivery_info (WhatsAppParser.clean_message message)).time_range
            || WhatsAppParser.truthyS
              (WhatsAppParser.extract_delivery_info (WhatsAppParser.clean_message message)).special_instructions)
          (WhatsAppParser.truthyQ
              (WhatsAppParser.extract_payment_info (WhatsAppParser.clean_message message)).total
            || WhatsAppParser.truthyS
              (WhatsAppParser.extract_payment_info (WhatsAppParser.clean_message message)).method)
          (totalImplausibleB
            (WhatsAppParser.extract_payment_info (WhatsAppParser.clean_message message)).total) := by
  simp only [WhatsAppParser.parse_message, WhatsAppParser.validate_parsed_data,
    final_confidence_formula]
  cases hco : (WhatsAppParser.extract_coordinates (WhatsAppParser.clean_message message)).isSome <;>
  cases hna : WhatsAppParser.truthyS
      (WhatsAppParser.extract_customer_info (WhatsAppParser.clean_message message)).name <;>
  cases hph : WhatsAppParser.truthyS
      (WhatsAppParser.extract_customer_info (WhatsAppParser.clean_message message)).phone <;>
  cases hpr : (WhatsAppParser.extract_products (WhatsAppParser.clean_message message)).isEmpty <;>
  rcases hto : (WhatsAppParser.extract_payment_info (WhatsAppParser.clean_message message)).total
    with _ | t <;>
  simp [hco, hna, hph, hpr, hto, totalImplausibleB] <;>
  by_cases hq : (t ≠ 0 ∧ (t < 10 ∨ t > 10000)) <;>
  simp [hq] <;>
  first
    | (intro h1 h2
       rcases hq with ⟨h0, h3 | h3⟩ <;> linarith)
    | (intro h0 h1
       refine absurd ⟨h0, ?_⟩ hq
       rcases lt_or_le t 10 with h | h
       · exact Or.inl h
       · exact Or.inr (h1 h))

/-- C1: For every input string — including the empty string, pure whitespace
and arbitrary garbage — both parsers return a fully populated result and
never raise: every field of the `ParsedOrder` (and of the NLP processor's
parsed dict) is a total function of the message (plus the timestamp for
`parsed_at`), with empty/`none` defaults when nothing was extracted. In this
embedding every extractor is a total Lean function, so the conjunction below
exhibits each field of the result for an arbitrary message. -/
theorem c1_no_throw_fully_populated (message now : String)
    (o : NLPProcessor.NlpOracles) (thr : ℚ) (st : NLPProcessor.NlpState) :
    (WhatsAppParser.parse_message message now).coordinates
      = WhatsAppParser.extract_coordinates (WhatsAppParser.clean_message message)
  ∧ (WhatsAppParser.parse_message message now).products
      = WhatsAppParser.extract_products (WhatsAppParser.clean_message message)
  ∧ (WhatsAppParser.parse_message message now).customer_info
      = WhatsAppParser.extract_customer_info (WhatsAppParser.clean_message message)
  ∧ (WhatsAppParser.parse_message message now).delivery_info
      = WhatsAppParser.extract_delivery_info (WhatsAppParser.clean_message message)
  ∧ (WhatsAppParser.parse_message message now).payment_info
      = WhatsAppParser.extract_payment_info (WhatsAppParser.clean_message message)
  ∧ (WhatsAppParser.parse_message message now).metadata.original_message = message
  ∧ (WhatsAppParser.parse_message message now).metadata.cleaned_message
      = WhatsAppParser.clean_message message
  ∧ (WhatsAppParser.parse_message message now).metadata.message_length = message.length
  ∧ (WhatsAppParser.parse_message message now).metadata.parsed_at = now
  ∧ (NLPProcessor.parse_whatsapp_message o thr st message).raw_message = message
  ∧ (NLPProcessor.parse_whatsapp_message o thr st message).coordinates
      = NLPProcessor.extract_coordinates (NLPProcessor.clean_message message)
  ∧ (NLPProcessor.parse_whatsapp_message o thr st message).products
      = NLPProcessor.extract_products o thr st (NLPProcessor.clean_message message) :=
  ⟨rfl, rfl, rfl, rfl, rfl, rfl, rfl, rfl, rfl, rfl, rfl, rfl⟩

/-- C7 (amended): parsing embeds `datetime.now()` in `metadata.parsed_at`,
so two runs are not byte-identical; but every OTHER field of the result —
coordinates, products, customer/delivery/payment info, confidence, errors,
warnings, and all remaining metadata — is a deterministic function of the
message alone, identical across runs with different timestamps. -/
theorem c7_amended_determinism (message t1 t2 : String) :
    (WhatsAppParser.parse_message message t1).coordinates
      = (WhatsAppParser.parse_message message t2).coordinates
  ∧ (WhatsAppParser.parse_message message t1).products
      = (WhatsAppParser.parse_message message t2).products
  ∧ (WhatsAppParser.parse_message message t1).customer_info
      = (WhatsAppParser.parse_message message t2).customer_info
  ∧ (WhatsAppParser.parse_message message t1).delivery_info
      = (WhatsAppParser.parse_message message t2).delivery_info
  ∧ (WhatsAppParser.parse_message message t1).payment_info
      = (WhatsAppParser.parse_message message t2).payment_info
  ∧ (WhatsAppParser.parse_message message t1).confidence
      = (WhatsAppParser.parse_message message t2).confidence
  ∧ (WhatsAppParser.parse_message message t1).errors
      = (WhatsAppParser.parse_message message t2).errors
  ∧ (WhatsAppParser.parse_message message t1).warnings
      = (WhatsAppParser.parse_message message t2).warnings
  ∧ (WhatsAppParser.parse_message message t1).metadata.original_message
      = (WhatsAppParser.parse_message message t2).metadata.original_message
  ∧ (WhatsAppParser.parse_message message t1).metadata.cleaned_message
      = (WhatsAppParser.parse_message message t2).metadata.cleaned_message
  ∧ (WhatsAppParser.parse_message message t1).metadata.message_length
      = (WhatsAppParser.parse_message message t2).metadata.message_length
  ∧ (WhatsAppParser.parse_message message t1).metadata.products_found
      = (WhatsAppParser.parse_message message t2).metadata.products_found
  ∧ (WhatsAppParser.parse_message message t1).metadata.validation_completed
      = (WhatsAppParser.parse_message message t2).metadata.validation_completed
  ∧ (WhatsAppParser.parse_message message t1).metadata.final_confidence
      = (WhatsAppParser.parse_message message t2).metadata.final_confidence :=
  ⟨rfl, rfl, rfl, rfl, rfl, rfl, rfl, rfl, rfl, rfl, rfl, rfl, rfl, rfl⟩

/-- C2 (amended): the confidence actually computed starts at 0 and gains
0.25 / 0.15 / 0.35 / 0.15 / 0.10 for coordinates / customer / products /
delivery / payment; the validation phase then multiplies by 0.1 when no
products matched, by 0.8 when customer identification is weak, by 0.5 when
any error is present (exactly the no-products case), and by 0.9 ONCE when
any warning is present — not 0.9 per distinct warning category, and with no
explicit clamp; the result nevertheless always lies in `[0, 1]`. -/
theorem c2_amended_confidence_model (message now : String) :
    (WhatsAppParser.parse_message message now).confidence
      = final_confidence_formula
          (WhatsAppParser.extract_coordinates (WhatsAppParser.clean_message message)).isSome
          (WhatsAppParser.truthyS
              (WhatsAppParser.extract_customer_info (WhatsAppParser.clean_message message)).name
            || WhatsAppParser.truthyS
              (WhatsAppParser.extract_customer_info (WhatsAppParser.clean_message message)).phone)
          (!(WhatsAppParser.extract_products (WhatsAppParser.clean_message message)).isEmpty)
          (WhatsAppParser.truthyS
              (WhatsAppParser.extract_delivery_info (WhatsAppParser.clean_message message)).reference
            || WhatsAppParser.truthyS
              (WhatsAppParser.extract_delivery_info (WhatsAppParser.clean_message message)).preferred_time
            || WhatsAppParser.truthyS
              (WhatsAppParser.extract_delivery_info (WhatsAppParser.clean_message message)).time_range
            || WhatsAppParser.truthyS
              (WhatsAppParser.extract_delivery_info (WhatsAppParser.clean_message message)).special_instructions)
          (WhatsAppParser.truthyQ
              (WhatsAppParser.extract_payment_info (WhatsAppParser.clean_message message)).total
            || WhatsAppParser.truthyS
              (WhatsAppParser.extract_payment_info (WhatsAppParser.clean_message message)).method)
          (totalImplausibleB
            (WhatsAppParser.extract_payment_info (WhatsAppParser.clean_message message)).total)
  ∧ 0 ≤ (WhatsAppParser.parse_message message now).confidence
  ∧ (WhatsAppParser.parse_message message now).confidence ≤ 1 := by
  refine ⟨parse_confidence_eq message now, ?_, ?_⟩
  · rw [parse_confidence_eq]
    exact (final_confidence_formula_bounds _ _ _ _ _ _).1
  · rw [parse_confidence_eq]
    exact (final_confidence_formula_bounds _ _ _ _ _ _).2

end SymbolicParse

/-! ## Coordinate bounding lemmas (claim C3) -/

/-- The match-scanning loop of the WhatsApp coordinate extractor only
returns pairs inside the wide approximate-Mexico box. -/
lemma scanCoord_box (ms : List (String × String)) (la ln : ℚ)
    (h : WhatsAppParser.scanCoordMatches ms = some (la, ln)) :
    (10 ≤ la ∧ la ≤ 35) ∧ (-120 ≤ ln ∧ ln ≤ -80) := by
  induction ms with
  | nil => simp [WhatsAppParser.scanCoordMatches] at h
  | cons m rest ih =>
    rcases m with ⟨a, b⟩
    rw [WhatsAppParser.scanCoordMatches] at h
    cases hfa : pyFloat a <;> cases hfb : pyFloat b <;> simp only [hfa, hfb] at h
    · exact absurd h (by simp)
    · exact absurd h (by simp)
    · exact absurd h (by simp)
    · next qa qb =>
      split at h
      · next hbox =>
        obtain ⟨rfl, rfl⟩ : qa = la ∧ qb = ln := by
          have := Option.some.inj h; exact ⟨congrArg Prod.fst this, congrArg Prod.snd this⟩
        exact ⟨hbox.2, hbox.1⟩
      · exact ih h

/-- Every coordinate pair returned by the WhatsApp parser's extractor lies
in the wide approximate-Mexico box (not the Cancún service box). -/
lemma wp_extract_coordinates_box (message : String) (la ln : ℚ)
    (h : WhatsAppParser.extract_coordinates message = some (la, ln)) :
    (10 ≤ la ∧ la ≤ 35) ∧ (-120 ≤ ln ∧ ln ≤ -80) := by
  have key : ∀ ps : List Re,
      ps.foldr (fun p rest =>
        match WhatsAppParser.scanCoordMatches (reFindAll2 false p message) with
        | some c => some c
        | none => rest) none = some (la, ln) →
      (10 ≤ la ∧ la ≤ 35) ∧ (-120 ≤ ln ∧ ln ≤ -80) := by
    intro ps
    induction ps with
    | nil => intro h'; simp at h'
    | cons p rest ih =>
      intro h'
      simp only [List.foldr] at h'
      cases hm : WhatsAppParser.scanCoordMatches (reFindAll2 false p message) with
      | some c =>
        simp only [hm] at h'
        obtain rfl : c = (la, ln) := Option.some.inj h'
        exact scanCoord_box _ _ _ hm
      | none =>
        simp only [hm] at h'
        exact ih h'
  exact key WhatsAppParser.coordPatterns h

/-- Every coordinate pair returned by the NLP processor's extractor lies in
the Cancún service box. -/
lemma nlp_extract_coordinates_box (message : String) (la ln : ℚ)
    (h : NLPProcessor.extract_coordinates message = some (la, ln)) :
    ((20.5 : ℚ) ≤ la ∧ la ≤ (21.5 : ℚ)) ∧ ((-87.5 : ℚ) ≤ ln ∧ ln ≤ (-86.5 : ℚ)) := by
  have key : ∀ ps : List (Bool × Re),
      ps.foldr (fun bp rest =>
        match reSearch true bp.2 message with
        | some r =>
          if bp.1 then rest
          else
            match pyFloat (capGet r.2.2 1), pyFloat (capGet r.2.2 2) with
            | some lat, some lng =>
              if ((20.5 : ℚ) ≤ lat ∧ lat ≤ (21.5 : ℚ)) ∧
                 ((-87.5 : ℚ) ≤ lng ∧ lng ≤ (-86.5 : ℚ)) then
                some (lat, lng)
              else rest
            | _, _ => rest
        | none => rest) none = some (la, ln) →
      ((20.5 : ℚ) ≤ la ∧ la ≤ (21.5 : ℚ)) ∧ ((-87.5 : ℚ) ≤ ln ∧ ln ≤ (-86.5 : ℚ)) := by
    intro ps
    induction ps with
    | nil => intro h'; simp at h'
    | cons bp rest ih =>
      intro h'
      simp only [List.foldr] at h'
      cases hs : reSearch true bp.2 message with
      | none => simp only [hs] at h'; exact ih h'
      | some r =>
        simp only [hs] at h'
        by_cases hskip : bp.1 = true
        · rw [if_pos hskip] at h'; exact ih h'
        · rw [if_neg hskip] at h'
          cases hfa : pyFloat (capGet r.2.2 1) <;> cases hfb : pyFloat (capGet r.2.2 2) <;>
            simp only [hfa, hfb] at h'
          · exact ih h'
          · exact ih h'
          · exact ih h'
          · next qa qb =>
            split at h'
            · next hbox =>
              obtain ⟨rfl, rfl⟩ : qa = la ∧ qb = ln :=
                ⟨congrArg Prod.fst (Option.some.inj h'),
                 congrArg Prod.snd (Option.some.inj h')⟩
              exact hbox
            · exact ih h'
  exact key NLPProcessor.nlpCoordPatterns h

/-- A pattern-then-validate step only returns pairs the service-box
validator accepts. -/
lemma ce_tryPattern_box (ic : Bool) (p : Re) (t : String) (la ln : ℚ)
    (h : CoordinatesExtractor.tryPattern ic p t = some (la, ln)) :
    CoordinatesExtractor.validate_coordinates la ln = true := by
  unfold CoordinatesExtractor.tryPattern at h
  cases hs : reSearch ic p t with
  | none => simp [hs] at h
  | some r =>
    simp only [hs] at h
    cases hfa : pyFloat (capGet r.2.2 1) <;> cases hfb : pyFloat (capGet r.2.2 2) <;>
      simp only [hfa, hfb] at h
    · exact absurd h (by simp)
    · exact absurd h (by simp)
    · exact absurd h (by simp)
    · next qa qb =>
      split at h
      · next hv =>
        obtain ⟨rfl, rfl⟩ : qa = la ∧ qb = ln :=
          ⟨congrArg Prod.fst (Option.some.inj h),
           congrArg Prod.snd (Option.some.inj h)⟩
        simpa [CoordinatesExtractor.validate_coordinates] using hv
      · exact absurd h (by simp)

/-- The direct-URL strategy only returns validated pairs. -/
lemma ce_direct_url_box (t : String) (la ln : ℚ)
    (h : CoordinatesExtractor.extract_from_direct_url t = some (la, ln)) :
    CoordinatesExtractor.validate_coordinates la ln = true := by
  unfold CoordinatesExtractor.extract_from_direct_url at h
  cases h1 : CoordinatesExtractor.tryPattern true CoordinatesExtractor.googleMapsDirect t with
  | some c =>
    simp only [h1, Option.orElse] at h
    obtain rfl : c = (la, ln) := Option.some.inj h
    exact ce_tryPattern_box _ _ _ _ _ h1
  | none =>
    simp only [h1, Option.orElse] at h
    cases h2 : CoordinatesExtractor.tryPattern true CoordinatesExtractor.googleMapsCoordinates t with
    | some c =>
      simp only [h2, Option.orElse] at h
      obtain rfl : c = (la, ln) := Option.some.inj h
      exact ce_tryPattern_box _ _ _ _ _ h2
    | none =>
      simp only [h2, Option.orElse] at h
      exact ce_tryPattern_box _ _ _ _ _ h

/-- The plain-text strategy only returns validated pairs. -/
lemma ce_text_box (t : String) (la ln : ℚ)
    (h : CoordinatesExtractor.extract_from_text t = some (la, ln)) :
    CoordinatesExtractor.validate_coordinates la ln = true := by
  unfold CoordinatesExtractor.extract_from_text at h
  cases h1 : CoordinatesExtractor.tryPattern true CoordinatesExtractor.coordinatesText t with
  | some c =>
    simp only [h1, Option.orElse] at h
    obtain rfl : c = (la, ln) := Option.some.inj h
    exact ce_tryPattern_box _ _ _ _ _ h1
  | none =>
    simp only [h1, Option.orElse] at h
    cases h2 : CoordinatesExtractor.tryPattern false CoordinatesExtractor.simpleCoordinates t with
    | some c =>
      simp only [h2, Option.orElse] at h
      obtain rfl : c = (la, ln) := Option.some.inj h
      exact ce_tryPattern_box _ _ _ _ _ h2
    | none =>
      simp only [h2, Option.orElse] at h
      exact ce_tryPattern_box _ _ _ _ _ h

/-- Short-URL expansion only returns validated pairs. -/
lemma ce_expand_box (resolve : String → Option String) (url : String) (la ln : ℚ)
    (h : CoordinatesExtractor.expand_short_url resolve url = some (la, ln)) :
    CoordinatesExtractor.validate_coordinates la ln = true := by
  unfold CoordinatesExtractor.expand_short_url at h
  cases hr : resolve url with
  | none => simp [hr] at h
  | some finalUrl =>
    simp only [hr] at h
    exact ce_direct_url_box _ _ _ h

/-- The short-URL strategy only returns validated pairs, given that the
cache (whose only writer stores validated results) holds validated pairs. -/
lemma ce_short_url_box (resolve : String → Option String)
    (cache : List (String × (ℚ × ℚ))) (t : String) (la ln : ℚ)
    (hcache : ∀ e ∈ cache, CoordinatesExtractor.validate_coordinates e.2.1 e.2.2 = true)
    (h : CoordinatesExtractor.extract_from_short_url resolve cache t = some (la, ln)) :
    CoordinatesExtractor.validate_coordinates la ln = true := by
  unfold CoordinatesExtractor.extract_from_short_url at h
  generalize hu : (match reSearch false CoordinatesExtractor.googleShortUrl t with
     | some r => [matchedText t r]
     | none => []) ++
    (match reSearch false CoordinatesExtractor.googleShareUrl t with
     | some r => [matchedText t r]
     | none => []) = urls at h
  clear hu
  induction urls with
  | nil => simp at h
  | cons url rest ih =>
    simp only [List.foldr] at h
    cases hc : cache.find? (fun p => p.1 == url) with
    | some p =>
      simp only [hc] at h
      obtain ⟨rfl, rfl⟩ : p.2.1 = la ∧ p.2.2 = ln := by
        have hp := Option.some.inj h
        exact ⟨congrArg Prod.fst hp, congrArg Prod.snd hp⟩
      exact hcache p (List.mem_of_find?_eq_some hc)
    | none =>
      simp only [hc] at h
      cases he : CoordinatesExtractor.expand_short_url resolve url with
      | some c =>
        simp only [he] at h
        obtain rfl : c = (la, ln) := Option.some.inj h
        exact ce_expand_box _ _ _ _ he
      | none =>
        simp only [he] at h
        exact ih h

/-- The gazetteer only returns validated pairs (all nine fixed locations lie
in the service box). -/
lemma ce_cancun_box (t : String) (la ln : ℚ)
    (h : CoordinatesExtractor.extract_cancun_specific t = some (la, ln)) :
    CoordinatesExtractor.validate_coordinates la ln = true := by
  unfold CoordinatesExtractor.extract_cancun_specific at h
  cases hf : CoordinatesExtractor.cancunLocations.find?
      (fun lc => pyContains (pyLower t) lc.1) with
  | none => simp [hf] at h
  | some lc =>
    simp only [hf, Option.map] at h
    obtain ⟨rfl, rfl⟩ : lc.2.1 = la ∧ lc.2.2 = ln := by
      have hp := Option.some.inj h
      exact ⟨congrArg Prod.fst hp, congrArg Prod.snd hp⟩
    have hmem := List.mem_of_find?_eq_some hf
    have hall : ∀ e ∈ CoordinatesExtractor.cancunLocations,
        CoordinatesExtractor.validate_coordinates e.2.1 e.2.2 = true := by decide
    exact hall lc hmem

/-- The whole `CoordinatesExtractor` only returns validated (service-box)
pairs. -/
lemma ce_extract_box (resolve : String → Option String)
    (cache : List (String × (ℚ × ℚ))) (t : String) (la ln : ℚ)
    (hcache : ∀ e ∈ cache, CoordinatesExtractor.validate_coordinates e.2.1 e.2.2 = true)
    (h : CoordinatesExtractor.extract_coordinates resolve cache t = some (la, ln)) :
    CoordinatesExtractor.validate_coordinates la ln = true := by
  unfold CoordinatesExtractor.extract_coordinates at h
  by_cases ht : (t == "") = true
  · rw [if_pos ht] at h; exact absurd h (by simp)
  · rw [if_neg ht] at h
    cases h1 : CoordinatesExtractor.extract_from_direct_url (pyStrip t) with
    | some c =>
      simp only [h1, Option.orElse] at h
      obtain rfl : c = (la, ln) := Option.some.inj h
      exact ce_direct_url_box _ _ _ h1
    | none =>
      simp only [h1, Option.orElse] at h
      cases h2 : CoordinatesExtractor.extract_from_text (pyStrip t) with
      | some c =>
        simp only [h2, Option.orElse] at h
        obtain rfl : c = (la, ln) := Option.some.inj h
        exact ce_text_box _ _ _ h2
      | none =>
        simp only [h2, Option.orElse] at h
        cases h3 : CoordinatesExtractor.extract_from_short_url resolve cache (pyStrip t) with
        | some c =>
          simp only [h3, Option.orElse] at h
          obtain rfl : c = (la, ln) := Option.some.inj h
          exact ce_short_url_box _ _ _ _ _ hcache h3
        | none =>
          simp only [h3, Option.orElse] at h
          exact ce_cancun_box _ _ _ h

/-- C3 (amended): the two Cancún-aware extractors (`CoordinatesExtractor`
and the NLP processor) indeed confine every returned pair to the service
box latitude `[20.5, 21.5]`, longitude `[-87.5, -86.5]`; but the WhatsApp
parser's `ParsedOrder` only validates against the much wider
approximate-Mexico box latitude `[10, 35]`, longitude `[-120, -80]`. -/
theorem c3_amended_bounding_boxes :
    (∀ message now la ln,
        (WhatsAppParser.parse_message message now).coordinates = some (la, ln) →
        (10 ≤ la ∧ la ≤ 35) ∧ (-120 ≤ ln ∧ ln ≤ -80))
  ∧ (∀ (resolve : String → Option String) (cache : List (String × (ℚ × ℚ))) t la ln,
        (∀ e ∈ cache, CoordinatesExtractor.validate_coordinates e.2.1 e.2.2 = true) →
        CoordinatesExtractor.extract_coordinates resolve cache t = some (la, ln) →
        ((20.5 : ℚ) ≤ la ∧ la ≤ (21.5 : ℚ)) ∧ ((-87.5 : ℚ) ≤ ln ∧ ln ≤ (-86.5 : ℚ)))
  ∧ (∀ message la ln,
        NLPProcessor.extract_coordinates message = some (la, ln) →
        ((20.5 : ℚ) ≤ la ∧ la ≤ (21.5 : ℚ)) ∧ ((-87.5 : ℚ) ≤ ln ∧ ln ≤ (-86.5 : ℚ))) := by
  refine ⟨?_, ?_, ?_⟩
  · intro message now la ln h
    rw [parse_coordinates_eq] at h
    exact wp_extract_coordinates_box _ _ _ h
  · intro resolve cache t la ln hcache h
    have hv := ce_extract_box resolve cache t la ln hcache h
    simpa [CoordinatesExtractor.validate_coordinates] using hv
  · intro message la ln h
    exact nlp_extract_coordinates_box _ _ _ h

/-! ## Validator lemmas (claim C4) -/

/-- The NLP validator's `is_valid` is true exactly when the errors list is
empty, and missing coordinates produce an ERROR that invalidates. -/
lemma nlp_validate_shape (o : NLPProcessor.NlpOracles) (st : NLPProcessor.NlpState)
    (d : NLPProcessor.NlpParsedData) :
    ((NLPProcessor.validate_parsed_data o st d).is_valid = true ↔
      (NLPProcessor.validate_parsed_data o st d).errors = [])
  ∧ (d.coordinates = none →
      (NLPProcessor.validate_parsed_data o st d).is_valid = false
      ∧ "No se encontraron coordenadas válidas" ∈
          (NLPProcessor.validate_parsed_data o st d).errors) := by
  unfold NLPProcessor.validate_parsed_data
  constructor
  · cases hc : d.coordinates <;> cases hp : d.products <;>
      simp [hc, hp, NLPProcessor.validate_parsed_data]
  · intro hnone
    cases hp : d.products <;> simp [hnone, hp]

/-- The WhatsApp validator records missing coordinates as a WARNING. -/
lemma wp_validate_coords_warning (r : WhatsAppParser.ParsedOrder)
    (h : r.coordinates = none) :
    "No se encontraron coordenadas de entrega" ∈
      (WhatsAppParser.validate_parsed_data r).warnings := by
  unfold WhatsAppParser.validate_parsed_data
  simp only [h]
  rcases hto : r.payment_info.total with _ | t <;>
    simp only [hto] <;>
    split <;> split <;>
    simp_all [List.mem_append]

/-- The WhatsApp validator's errors depend only on whether products
matched — never on coordinates. -/
lemma wp_validate_errors_shape (r : WhatsAppParser.ParsedOrder) :
    (WhatsAppParser.validate_parsed_data r).errors
      = r.errors ++
        (if r.products.isEmpty then ["No se identificaron productos en el mensaje"] else []) := by
  unfold WhatsAppParser.validate_parsed_data
  cases hp : r.products.isEmpty <;> simp [hp]

/-- C4 (amended): in the NLP validator, `is_valid` is true exactly when the
errors list is empty (warnings never invalidate), but missing coordinates
are recorded as an ERROR and set `is_valid` to false — so a message with
matched products and no coordinates is invalid there. Only the WhatsApp
parser's validator treats missing coordinates as a warning, and its error
list never depends on coordinates. -/
theorem c4_amended_validator (o : NLPProcessor.NlpOracles) (st : NLPProcessor.NlpState)
    (d : NLPProcessor.NlpParsedData) (r : WhatsAppParser.ParsedOrder) :
    ((NLPProcessor.validate_parsed_data o st d).is_valid = true ↔
        (NLPProcessor.validate_parsed_data o st d).errors = [])
  ∧ (d.coordinates = none →
        (NLPProcessor.validate_parsed_data o st d).is_valid = false
        ∧ "No se encontraron coordenadas válidas" ∈
            (NLPProcessor.validate_parsed_data o st d).errors)
  ∧ (r.coordinates = none →
        "No se encontraron coordenadas de entrega" ∈
          (WhatsAppParser.validate_parsed_data r).warnings)
  ∧ ((WhatsAppParser.validate_parsed_data r).errors
        = r.errors ++
          (if r.products.isEmpty then ["No se identificaron productos en el mensaje"]
           else [])) :=
  ⟨(nlp_validate_shape o st d).1, (nlp_validate_shape o st d).2,
   wp_validate_coords_warning r, wp_validate_errors_shape r⟩

/-- C5 (amended): on the near-the-product path (the matched text occurs in
the message), the first number in the 50-character window is capped at
1000; the quantity is a natural number, so it always lies in `[0, 1000]` on
this path. (The message-wide fallback path, taken only when the matched
text does NOT occur, returns the pattern's number uncapped — see the
counterexample.) -/
theorem c5_amended_quantity_cap (message product_text : String)
    (h : (pyFind message (pyLower product_text)).isSome = true) :
    NLPProcessor.extract_quantity_near_product message product_text ≤ 1000 := by
  unfold NLPProcessor.extract_quantity_near_product
  rcases hf : pyFind message (pyLower product_text) with _ | pos
  · rw [hf] at h; simp at h
  · simp only [hf]
    cases hn : reFindAll1 false NLPProcessor.firstNumberRe
        (pySlice message (pos - 50) (min message.length (pos + product_text.length + 50))) with
    | nil => simp
    | cons n rest => simp [Nat.min_le_right]

/-! ## Strategy-order lemmas (claim C6) -/

/-- With a failing network resolver, the short-URL strategy silently yields
nothing. -/
lemma ce_short_url_always_fails (t : String) :
    CoordinatesExtractor.extract_from_short_url (fun _ => none) [] t = none := by
  unfold CoordinatesExtractor.extract_from_short_url
  generalize (match reSearch false CoordinatesExtractor.googleShortUrl t with
     | some r => [matchedText t r]
     | none => []) ++
    (match reSearch false CoordinatesExtractor.googleShareUrl t with
     | some r => [matchedText t r]
     | none => []) = urls
  induction urls with
  | nil => rfl
  | cons url rest ih => simpa [CoordinatesExtractor.expand_short_url] using ih

/-- The extractor equals the four strategies chained by first-success. -/
lemma ce_extract_eq_chain (resolve : String → Option String)
    (cache : List (String × (ℚ × ℚ))) (t : String) :
    CoordinatesExtractor.extract_coordinates resolve cache t
      = ((CoordinatesExtractor.extract_from_direct_url (pyStrip t)).orElse (fun _ =>
          (CoordinatesExtractor.extract_from_text (pyStrip t)).orElse (fun _ =>
            (CoordinatesExtractor.extract_from_short_url resolve cache (pyStrip t)).orElse (fun _ =>
              CoordinatesExtractor.extract_cancun_specific (pyStrip t))))) := by
  unfold CoordinatesExtractor.extract_coordinates
  by_cases ht : (t == "") = true
  · have ht' : t = "" := eq_of_beq ht
    subst ht'
    rw [if_pos ht]
    rfl
  · rw [if_neg ht]

/-- C6: coordinate resolution tries the strategies in the fixed order
direct-URL, inline text, shortened-link expansion, gazetteer — first
success wins (the extractor literally equals the `orElse` chain of the four
strategies on the stripped text); and a failing network resolver (any
timeout / non-200 / request exception, modelled by `none`) degrades
silently: the expansion step and the whole strategy return `none` rather
than raising. -/
theorem c6_strategy_priority (resolve : String → Option String)
    (cache : List (String × (ℚ × ℚ))) (text : String) :
    (CoordinatesExtractor.extract_coordinates resolve cache text
      = ((CoordinatesExtractor.extract_from_direct_url (pyStrip text)).orElse (fun _ =>
          (CoordinatesExtractor.extract_from_text (pyStrip text)).orElse (fun _ =>
            (CoordinatesExtractor.extract_from_short_url resolve cache (pyStrip text)).orElse
              (fun _ => CoordinatesExtractor.extract_cancun_specific (pyStrip text))))))
  ∧ (∀ url, CoordinatesExtractor.expand_short_url (fun _ => none) url = none)
  ∧ (∀ t, CoordinatesExtractor.extract_from_short_url (fun _ => none) [] t = none) :=
  ⟨ce_extract_eq_chain resolve cache text, fun _ => rfl, ce_short_url_always_fails⟩

/-! ## Lower-casing lemmas (claim C9) -/

/-- `str.lower` never outputs an upper-case character. -/
lemma lower_not_upperish (c : Char) : pyIsUpperish (pyCharLower c) = false := by
  unfold pyIsUpperish pyCharLower
  cases h : lowerPairs.find? (fun p => p.1 == c) with
  | none => simp [h]
  | some pr =>
    have hmem : pr ∈ lowerPairs := List.mem_of_find?_eq_some h
    have hall : ∀ q ∈ lowerPairs, ∀ p ∈ lowerPairs, ¬(Prod.fst p) = q.2 := by decide
    simp [h]
    intro a b hab
    exact hall pr hmem (a, b) hab

/-- Characters of a collapsed run list come from the input or are the
replacement character. -/
lemma mem_collapseRunsGo (isR : Char → Bool) (rep : Char) :
    ∀ (b : Bool) (cs : List Char) (x : Char),
      x ∈ collapseRunsGo isR rep b cs → x = rep ∨ x ∈ cs := by
  intro b cs
  induction cs generalizing b with
  | nil => intro x hx; simp [collapseRunsGo] at hx
  | cons c rest ih =>
    intro x hx
    rw [collapseRunsGo] at hx
    by_cases hc : isR c = true
    · rw [if_pos hc] at hx
      by_cases hb : b = true
      · rw [if_pos hb] at hx
        rcases ih true x hx with h | h
        · exact Or.inl h
        · exact Or.inr (List.mem_cons_of_mem _ h)
      · rw [if_neg hb] at hx
        rcases List.mem_cons.mp hx with h | h
        · exact Or.inl h
        · rcases ih true x h with h' | h'
          · exact Or.inl h'
          · exact Or.inr (List.mem_cons_of_mem _ h')
    · rw [if_neg hc] at hx
      rcases List.mem_cons.mp hx with h | h
      · exact Or.inr (h ▸ List.mem_cons_self _ _)
      · rcases ih false x h with h' | h'
        · exact Or.inl h'
        · exact Or.inr (List.mem_cons_of_mem _ h')

/-- Stripping only removes characters. -/
lemma mem_pyStripL (cs : List Char) (x : Char) (hx : x ∈ pyStripL cs) : x ∈ cs := by
  unfold pyStripL at hx
  rw [List.mem_reverse] at hx
  have h1 : x ∈ (cs.dropWhile pyIsSpace).reverse :=
    (List.dropWhile_sublist _).mem hx
  rw [List.mem_reverse] at h1
  exact (List.dropWhile_sublist _).mem h1

/-- Every character of the WhatsApp parser's cleaned message is
lower-cased. -/
lemma wp_clean_all_lower (m : String) :
    ((WhatsAppParser.clean_message m).data.all (fun c => !pyIsUpperish c)) = true := by
  rw [List.all_eq_true]
  intro c hc
  have hc' : c ∈ pyStripL (collapseRuns (fun c => c == '\n') '\n'
      (collapseRuns pyIsSpace ' '
        ((pyLower m).data.map (fun c =>
          if pyIsWord c || pyIsSpace c || c == '\n' || c == '$' || c == '.' || c == ',' ||
             c == ':' || c == '-' || c == '(' || c == ')' || c == '#' then c else ' ')))) := hc
  have h4 := mem_pyStripL _ _ hc'
  rcases mem_collapseRunsGo _ _ _ _ _ h4 with h | h3
  · subst h; decide
  rcases mem_collapseRunsGo _ _ _ _ _ h3 with h | h2
  · subst h; decide
  rcases List.mem_map.mp h2 with ⟨a, ha, rfl⟩
  rcases List.mem_map.mp ha with ⟨a0, _, rfl⟩
  split
  · simp [lower_not_upperish]
  · decide

/-- Every character of the NLP processor's cleaned message is lower-cased. -/
lemma nlp_clean_all_lower (m : String) :
    ((NLPProcessor.clean_message m).data.all (fun c => !pyIsUpperish c)) = true := by
  rw [List.all_eq_true]
  intro c hc
  have hc' : c ∈ pyStripL ((collapseRuns pyIsSpace ' '
      (m.data.map (fun c =>
        if pyIsWord c || pyIsSpace c || c == '.' || c == ',' || c == ':' || c == '-' ||
           c == '(' || c == ')' || c == '/' || c == '$' then c else ' '))).map pyCharLower) := hc
  have h2 := mem_pyStripL _ _ hc'
  rcases List.mem_map.mp h2 with ⟨a, _, rfl⟩
  simp [lower_not_upperish]

/-- C9 (amended): both message normalizers lower-case the ENTIRE message
(the WhatsApp parser as its first step, the NLP processor after its
character filter): no upper-case character — in particular no preserved
allow-list character in its original upper case — survives into the
normalized output. -/
theorem c9_amended_full_lowercasing (message : String) :
    ((WhatsAppParser.clean_message message).data.all (fun c => !pyIsUpperish c)) = true
  ∧ ((NLPProcessor.clean_message message).data.all (fun c => !pyIsUpperish c)) = true :=
  ⟨wp_clean_all_lower message, nlp_clean_all_lower message⟩

/-! ## Product-entry lemmas (claim C10) -/

/-- `str.title` preserves length. -/
lemma pyTitleGo_length : ∀ (b : Bool) (cs : List Char), (pyTitleGo b cs).length = cs.length := by
  intro b cs
  induction cs generalizing b with
  | nil => rfl
  | cons c rest ih =>
    rw [pyTitleGo]
    by_cases h : pyIsAlphaChar c = true
    · rw [if_pos h]; simp [ih]
    · rw [if_neg h]; simp [ih]

/-- `str.title` preserves length. -/
lemma pyTitle_length (s : String) : (pyTitle s).length = s.length := by
  show (pyTitleGo false s.data).length = s.data.length
  exact pyTitleGo_length false s.data

/-- A successfully normalized product name is longer than 2 characters
(both on the known-product branch and on the cleaned-name branch). -/
lemma normalize_name_length (s n : String)
    (h : WhatsAppParser.normalize_product_name s = some n) : 2 < n.length := by
  simp only [WhatsAppParser.normalize_product_name] at h
  generalize hpn : pyStrip (pyLower s) = pn at h
  have hknown : ∀ (l : List (String × List String)),
      (∀ ck ∈ l, 2 < (pyTitle ck.1).length) →
      ∀ res : String,
        l.foldr (fun ck rest =>
          match ck.2.find? (fun kw => pyContains pn kw) with
          | some _ => some (pyTitle ck.1)
          | none => rest) none = some res →
        2 < res.length := by
    intro l hl res
    induction l with
    | nil => intro h'; simp at h'
    | cons ck rest ih =>
      intro h'
      simp only [List.foldr] at h'
      cases hf : ck.2.find? (fun kw => pyContains pn kw) with
      | some kw =>
        simp only [hf] at h'
        obtain rfl : pyTitle ck.1 = res := Option.some.inj h'
        exact hl ck (List.mem_cons_self _ _)
      | none =>
        simp only [hf] at h'
        exact ih (fun c hc => hl c (List.mem_cons_of_mem _ hc)) h'
  split at h
  · next category hh =>
    obtain rfl : category = n := Option.some.inj h
    refine hknown WhatsAppParser.knownProducts ?_ _ hh
    decide
  · next hh =>
    split at h
    · next hlen =>
      obtain rfl : pyTitle (pyStrip ⟨collapseRuns pyIsSpace ' ' (dropStopWords pn.data)⟩) = n :=
        Option.some.inj h
      rw [pyTitle_length]
      exact hlen
    · exact absurd h (by simp)

/-- A product entry accepted by the per-match step has a positive quantity
and a name longer than 2 characters. -/
lemma productOfMatch_inv (msg : String) (m : String × String) (p : WhatsAppParser.WpProduct)
    (h : WhatsAppParser.productOfMatch msg m = some p) :
    1 ≤ p.quantity ∧ 2 < p.name.length := by
  simp only [WhatsAppParser.productOfMatch] at h
  by_cases hd : pyIsDigit m.1 = true
  · simp only [hd, eq_self_iff_true, if_true] at h
    cases hn : WhatsAppParser.normalize_product_name (pyStrip m.2) with
    | none => simp [hn] at h
    | some nm =>
      simp only [hn] at h
      split at h
      · next hq =>
        obtain rfl : _ = p := Option.some.inj h
        refine ⟨?_, normalize_name_length _ _ hn⟩
        show (1 : ℤ) ≤ ((natOfDigits m.1.data : ℤ))
        omega
      · exact absurd h (by simp)
  · simp only [hd, Bool.false_eq_true, if_false] at h
    cases hi : pyInt m.2 with
    | none => simp only [hi] at h; exact absurd h (by simp)
    | some q =>
      simp only [hi] at h
      cases hn : WhatsAppParser.normalize_product_name (pyStrip m.1) with
      | none => simp only [hn] at h; exact absurd h (by simp)
      | some nm =>
        simp only [hn] at h
        split at h
        · next hq =>
          obtain rfl : _ = p := Option.some.inj h
          refine ⟨?_, normalize_name_length _ _ hn⟩
          show (1 : ℤ) ≤ q
          omega
        · exact absurd h (by simp)

/-- Members of an accumulate-by-append fold come from the start value or
from one of the per-element lists. -/
lemma mem_foldl_append {α β : Type} (f : β → List α) :
    ∀ (l : List β) (init : List α) (x : α),
      x ∈ l.foldl (fun acc b => acc ++ f b) init → x ∈ init ∨ ∃ b, b ∈ l ∧ x ∈ f b := by
  intro l
  induction l with
  | nil => intro init x hx; exact Or.inl hx
  | cons b rest ih =>
    intro init x hx
    rcases ih (init ++ f b) x hx with h | ⟨b', hb', hx'⟩
    · rcases List.mem_append.mp h with h' | h'
      · exact Or.inl h'
      · exact Or.inr ⟨b, List.mem_cons_self _ _, h'⟩
    · exact Or.inr ⟨b', List.mem_cons_of_mem _ hb', hx'⟩

/-- C10: every product entry returned by the WhatsApp parser's product
extraction has quantity at least 1 and a (normalized) name longer than 2
characters: mentions whose quantity parses to 0 (or negative) or whose name
normalizes to nothing are silently dropped, so the NLP validator's
per-product invalid-quantity warning (`quantity ≤ 0`) can never fire on
this parser's output. -/
theorem c10_product_invariants (message : String) (p : WhatsAppParser.WpProduct)
    (h : p ∈ WhatsAppParser.extract_products message) :
    1 ≤ p.quantity ∧ 2 < p.name.length := by
  unfold WhatsAppParser.extract_products at h
  rcases mem_foldl_append _ _ _ _ h with h' | ⟨pat, _, hp⟩
  · simp at h'
  · rcases List.mem_filterMap.mp hp with ⟨m, _, hm⟩
    exact productOfMatch_inv message m p hm

/-! ## Concrete counterexamples, witnesses, and the refresh bug -/

/-- C2 (counterexample): on the message `"2 kg abc"` one product matches,
no error is raised, and the warnings fall into exactly two spec categories
(missing coordinates — twice — and weak identification); the code computes
confidence `0.35 × 0.8 × 0.9 = 0.252`, but the specification's model —
`0.35 × 0.9` per distinct warning category, i.e. `0.35 × 0.9² = 0.2835` —
gives a different value, so the claim's confidence formula is not the
code's. -/
theorem c2_counterexample :
    (WhatsAppParser.parse_message "2 kg abc" "t").coordinates = none
  ∧ (WhatsAppParser.parse_message "2 kg abc" "t").products.isEmpty = false
  ∧ (WhatsAppParser.parse_message "2 kg abc" "t").errors = []
  ∧ (WhatsAppParser.parse_message "2 kg abc" "t").warnings =
      ["No se encontraron coordenadas", "No se encontraron coordenadas de entrega",
       "Información limitada del cliente"]
  ∧ (WhatsAppParser.parse_message "2 kg abc" "t").confidence = 63/250
  ∧ specConfidenceModel false true false false false false 2 = 567/2000
  ∧ (63/250 : ℚ) ≠ 567/2000 := by decide

/-- C3 (counterexample): the message `"25.0, -100.0"` yields a
`ParsedOrder` whose coordinates `(25, -100)` are far outside the configured
service box (the parser validated them only against the wide Mexico box),
refuting the claim that every output pair lies in latitude `[20.5, 21.5]`,
longitude `[-87.5, -86.5]`. -/
theorem c3_counterexample :
    (WhatsAppParser.parse_message "25.0, -100.0" "t").coordinates = some (25, -100)
  ∧ CoordinatesExtractor.validate_coordinates 25 (-100) = false := by decide

/-- C4 (counterexample): a parsed message with one matched product and no
coordinates is INVALID for the NLP validator — missing coordinates went to
`errors`, not `warnings` — refuting the claim that such a message yields
`is_valid = true`. -/
theorem c4_counterexample :
    (NLPProcessor.validate_parsed_data zeroOracles NLPProcessor.initState c4data).is_valid
      = false
  ∧ "No se encontraron coordenadas válidas" ∈
      (NLPProcessor.validate_parsed_data zeroOracles NLPProcessor.initState c4data).errors
  ∧ c4data.products.isEmpty = false ∧ c4data.coordinates = none := by decide

/-- C5 (counterexample): when the matched text does not occur in the
message, the fallback path returns the message-wide pattern's number
UNCAPPED: `"cantidad: 5000"` yields quantity 5000 > 1000, refuting the
claim that every returned quantity is capped at 1000. -/
theorem c5_counterexample :
    NLPProcessor.extract_quantity_near_product "cantidad: 5000" "xyz" = 5000
  ∧ pyFind "cantidad: 5000" (pyLower "xyz") = none
  ∧ ¬(5000 ≤ 1000) := by decide

/-- C7 (counterexample): two parses of the same (empty) message with
different wall-clock timestamps are NOT byte-identical — they differ in
`metadata.parsed_at` — refuting strict idempotence of the full result. -/
theorem c7_counterexample :
    WhatsAppParser.parse_message "" "2024-01-01T00:00:00" ≠
    WhatsAppParser.parse_message "" "2024-01-01T00:00:01" := by decide

/-- C8 (code bug): `_load_products` rebuilds `products_cache` from scratch
but only APPENDS to `product_names`, so refreshing twice with the same
single product leaves the name twice in the fuzzy-match list while the
cache holds one entry — refresh is NOT idempotent and old names survive as
residue. The fails-open part of the claim does hold: an empty source gives
an empty cache and similarity matching returns no candidates. -/
theorem c8_refresh_residue_bug :
    (NLPProcessor.load_products [sampleProduct]
        (NLPProcessor.load_products [sampleProduct] NLPProcessor.initState)).product_names
      = ["nupec adulto", "nupec adulto"]
  ∧ (NLPProcessor.load_products [sampleProduct]
        (NLPProcessor.load_products [sampleProduct] NLPProcessor.initState)).products_cache
      = (NLPProcessor.load_products [sampleProduct] NLPProcessor.initState).products_cache
  ∧ NLPProcessor.load_products [sampleProduct]
        (NLPProcessor.load_products [sampleProduct] NLPProcessor.initState)
      ≠ NLPProcessor.load_products [sampleProduct] NLPProcessor.initState
  ∧ (NLPProcessor.load_products [] NLPProcessor.initState).products_cache = []
  ∧ NLPProcessor.find_similar_products zeroOracles (7/10)
      (NLPProcessor.load_products [] NLPProcessor.initState) "nupec" = [] := by decide

/-- C9 (counterexample): `'A'` is a word character — preserved by both
normalizers' allow-lists — yet both normalizers emit it lower-cased,
refuting the claim that preserved characters keep their original case. -/
theorem c9_counterexample :
    WhatsAppParser.clean_message "ABC" = "abc"
  ∧ NLPProcessor.clean_message "ABC" = "abc"
  ∧ pyIsWord 'A' = true
  ∧ ("abc" : String) ≠ "ABC" := by decide

/-- C3 (witness): concrete in-bounds runs of all three extractors, with the
bounds obtained from the amended bounding theorem. -/
theorem c3_witness :
    ((WhatsAppParser.parse_message "21.0, -87.0" "t").coordinates = some (21, -87)
      ∧ ((10 : ℚ) ≤ 21 ∧ (21 : ℚ) ≤ 35) ∧ ((-120 : ℚ) ≤ -87 ∧ (-87 : ℚ) ≤ -80))
  ∧ (CoordinatesExtractor.extract_coordinates (fun _ => none) [] "centro"
        = some (21.1619, -86.8515)
      ∧ (((20.5 : ℚ) ≤ 21.1619 ∧ (21.1619 : ℚ) ≤ 21.5)
         ∧ ((-87.5 : ℚ) ≤ -86.8515 ∧ (-86.8515 : ℚ) ≤ -86.5)))
  ∧ (NLPProcessor.extract_coordinates "21.0, -87.0" = some (21, -87)
      ∧ (((20.5 : ℚ) ≤ 21 ∧ (21 : ℚ) ≤ 21.5)
         ∧ ((-87.5 : ℚ) ≤ -87 ∧ (-87 : ℚ) ≤ -86.5))) :=
  ⟨⟨by decide, c3_amended_bounding_boxes.1 "21.0, -87.0" "t" 21 (-87) (by decide)⟩,
   ⟨by decide,
    c3_amended_bounding_boxes.2.1 (fun _ => none) [] "centro" 21.1619 (-86.8515)
      (by simp) (by decide)⟩,
   ⟨by decide, c3_amended_bounding_boxes.2.2 "21.0, -87.0" 21 (-87) (by decide)⟩⟩

/-- C4 (witness): the amended validator theorem applied to a concrete
parsed message (products, no coordinates) and a concrete `ParsedOrder`. -/
theorem c4_witness :
    ((NLPProcessor.validate_parsed_data zeroOracles NLPProcessor.initState c4data).is_valid
        = false
      ∧ "No se encontraron coordenadas válidas" ∈
          (NLPProcessor.validate_parsed_data zeroOracles NLPProcessor.initState c4data).errors)
  ∧ "No se encontraron coordenadas de entrega" ∈
      (WhatsAppParser.validate_parsed_data sampleOrder).warnings
  ∧ (WhatsAppParser.validate_parsed_data sampleOrder).errors
      = sampleOrder.errors ++ ["No se identificaron productos en el mensaje"] := by
  have h := c4_amended_validator zeroOracles NLPProcessor.initState c4data sampleOrder
  refine ⟨h.2.1 rfl, h.2.2.1 rfl, ?_⟩
  rw [h.2.2.2]
  decide

/-- C5 (witness): the near-the-product cap applied to a concrete message in
which the matched text occurs. -/
theorem c5_witness :
    (pyFind "abc 5" (pyLower "abc")).isSome = true
  ∧ NLPProcessor.extract_quantity_near_product "abc 5" "abc" ≤ 1000 :=
  ⟨by decide, c5_amended_quantity_cap "abc 5" "abc" (by decide)⟩

/-- C10 (witness): the invariant applied to the concrete entry extracted
from `"2 kg abc"`. -/
theorem c10_witness :
    ({ name := "Abc", quantity := 2, unit := "piezas", price := none } :
        WhatsAppParser.WpProduct) ∈ WhatsAppParser.extract_products "2 kg abc"
  ∧ (1 : ℤ) ≤ 2 ∧ 2 < ("Abc" : String).length := by
  have hmem : ({ name := "Abc", quantity := 2, unit := "piezas", price := none } :
      WhatsAppParser.WpProduct) ∈ WhatsAppParser.extract_products "2 kg abc" := by decide
  have h := c10_product_invariants "2 kg abc" _ hmem
  exact ⟨hmem, h.1, h.2⟩

end CocoOrders




